import Mathlib

/-!
Verification development for the medical-report extraction/classification
core of the `explify` sidecar.

Each Python module relevant to the checked properties is shallowly embedded:
pure functions become Lean functions over `String`/`List`/`ℚ`; Python floats
are modelled as exact rationals (all constants involved are decimal and the
code performs only comparisons and decimal arithmetic on them); calls into
external engines (the `re` regex engine on data-driven pattern tables, the
OCR/raster stack) are modelled as explicit oracle parameters so theorems
quantify over every possible outcome of the external call; Python `dict`s
become association lists in insertion order; `try/except` becomes `Option`.
-/

set_option maxRecDepth 4000

namespace Sidecar

/-! ## Data model (api/models.py, api/analysis_models.py)

The `api.models` / `api.analysis_models` modules themselves are not part of
the extraction core sources; the structures below are the plain data
containers those modules provide. -/

/-- Modelled from the spec: per-page classification outcome of the
Page-Type Detector ("machine-text vs. scanned", document level may be
MIXED). -/
inductive PageType where
  | TEXT
  | SCANNED
  | MIXED
deriving DecidableEq, Repr

/-- Modelled from the spec: severity tier of a Classification Result
("normal / mildly / moderately / severely abnormal / undetermined"). -/
inductive SeverityStatus where
  | NORMAL
  | MILDLY_ABNORMAL
  | MODERATELY_ABNORMAL
  | SEVERELY_ABNORMAL
  | UNDETERMINED
deriving DecidableEq, Repr

/-- Modelled from the spec: direction of a Classification Result
("above/below/normal"). -/
inductive AbnormalityDirection where
  | ABOVE_NORMAL
  | BELOW_NORMAL
  | NORMAL
deriving DecidableEq, Repr

/-- Modelled from the spec: an Extracted Page — "page number, raw text,
extraction method tag, a 0-1 confidence score, character count". -/
structure PageExtractionResult where
  page_number : ℕ
  text : String
  extraction_method : String
  confidence : ℚ
  char_count : ℕ
deriving DecidableEq, Repr

/-- Modelled from the spec: an Extracted Table — "page number, table index,
ordered header labels, ordered rows". -/
structure ExtractedTable where
  page_number : ℕ
  table_index : ℕ
  headers : List String
  rows : List (List String)
deriving DecidableEq, Repr

/-! ## Python string primitives

Helpers shared by the embeddings.  They model the CPython `str` methods the
source uses; inputs in this development are ASCII, for which these agree
with CPython (Python's methods additionally handle non-ASCII whitespace
and case). -/

/-- Python `\s` / `str.strip()` whitespace, ASCII part:
space, `\t`, `\n`, `\r`, `\x0b`, `\x0c`. -/
def isPyWs (c : Char) : Bool :=
  c = ' ' || c = '\t' || c = '\n' || c = '\r' || c = '\x0b' || c = '\x0c'

/-- `str.strip()` (ASCII whitespace). -/
def pyStrip (s : String) : String :=
  ((s.data.dropWhile isPyWs).reverse.dropWhile isPyWs).reverse.asString

/-- `str.lower()` (ASCII case fold). -/
def pyLower (s : String) : String :=
  (s.data.map Char.toLower).asString

/-- `l₁` is a prefix of `l₂` (Boolean). -/
def listStartsWith : List Char → List Char → Bool
  | [], _ => true
  | _ :: _, [] => false
  | a :: as, b :: bs => a = b && listStartsWith as bs

/-- `l₁` occurs contiguously inside `l₂` (Boolean). -/
def listContains (needle : List Char) : List Char → Bool
  | [] => needle.isEmpty
  | c :: rest => listStartsWith needle (c :: rest) || listContains needle rest

/-- Python slicing `s[:n]` (by codepoint, like CPython). -/
def pyTake (s : String) (n : ℕ) : String :=
  (s.data.take n).asString

/-- `a in b` on Python strings: substring containment. -/
def pyIn (needle hay : String) : Bool :=
  listContains needle.data hay.data

/-- `str.split()` with no argument: split on whitespace runs, dropping
empty pieces. -/
def pySplitWs (s : String) : List String :=
  (s.split (fun c => isPyWs c)).filter (fun p => p ≠ "")

/-- `" ".join(text.split())`: whitespace-normalised form of a string. -/
def wsNormalize (s : String) : String :=
  String.intercalate " " (pySplitWs s)

/-- `str.splitlines()` restricted to the `\n` / `\r` / `\r\n` line breaks
that occur in this repository's inputs.  Like CPython, a trailing line
break does not produce a trailing empty line. -/
def pySplitlines (s : String) : List String :=
  go s.data [] []
where
  go : List Char → List Char → List String → List String
    | [], cur, acc =>
        if cur.isEmpty then acc.reverse else (cur.reverse.asString :: acc).reverse
    | '\r' :: '\n' :: rest, cur, acc => go rest [] (cur.reverse.asString :: acc)
    | '\r' :: rest, cur, acc => go rest [] (cur.reverse.asString :: acc)
    | '\n' :: rest, cur, acc => go rest [] (cur.reverse.asString :: acc)
    | c :: rest, cur, acc => go rest (c :: cur) acc

/-- Python `round(x)` to an integer: round-half-to-even (banker's
rounding), exact on our rational model. -/
def pyRoundInt (q : ℚ) : ℤ :=
  let f : ℤ := ⌊q⌋
  let frac : ℚ := q - f
  if frac < 1/2 then f
  else if frac > 1/2 then f + 1
  else if Even f then f else f + 1

/-- Python `round(x, n)`: round to `n` decimal digits, half-to-even
(written with `Rat.divInt`, which is definitionally the integer-over-power
division — see `pyRound_eq_div` below). -/
def pyRound (q : ℚ) (n : ℕ) : ℚ :=
  Rat.divInt (pyRoundInt (q * (10 : ℚ) ^ n)) ((10 : ℤ) ^ n)

/-- CPython `str(float)` for the values appearing in the reference-range
tables (all are integral or end in `.5`, and are exactly representable as
binary floats, so `repr` prints them with one fractional digit). -/
def pyFloatRepr (q : ℚ) : String :=
  if q.den = 1 then toString q.num ++ ".0"
  else toString (q.num / 2) ++ ".5"

/-- Evaluate a predicate on an optional threshold; `none` (the Python
`None` sentinel) yields `false`, matching the `x is not None and ...`
guards in the classifiers. -/
def optHolds (o : Option ℚ) (p : ℚ → Bool) : Bool :=
  match o with
  | none => false
  | some t => p t

end Sidecar

namespace Sidecar.Detector

/-! ## Page-Type Detector (extraction/detector.py)

Per-page machine-text vs. scanned classification.  `pdfplumber` page text
extraction is external; the embedding takes the extracted text of each
page as input, exactly as `PDFDetector.detect` receives it. -/

/-- `TEXT_CHAR_THRESHOLD = 50`. -/
def TEXT_CHAR_THRESHOLD : ℕ := 50

/-- `_MIN_PRINTABLE_RATIO = 0.70`. -/
def MIN_PRINTABLE_FRAC : ℚ := 0.70

/-- `string.printable` membership used by `_printable_ratio`: printable
ASCII (codepoints 32-126, plus `\t\n\r\x0b\x0c`) or any codepoint
above 127. -/
def isPrintableForDetector (c : Char) : Bool :=
  (32 ≤ c.toNat && c.toNat ≤ 126) ||
  c = '\t' || c = '\n' || c = '\r' || c = '\x0b' || c = '\x0c' ||
  c.toNat > 127

/-- `_printable_ratio(text)`: fraction of characters that are printable,
`0.0` for the empty string. -/
def printableFrac (text : String) : ℚ :=
  if text.data.isEmpty then 0
  else ((text.data.filter isPrintableForDetector).length : ℚ) / (text.data.length : ℚ)

/-- Per-page detection record (`PageDetection`). -/
structure PageDetection where
  page_number : ℕ
  page_type : PageType
  char_count : ℕ
  confidence : ℚ
deriving DecidableEq, Repr

/-- The per-page body of `PDFDetector.detect`: char count and printable
fraction of the stripped text decide TEXT vs SCANNED, and the branch also
fixes the confidence formula. -/
def detectPage (page_number : ℕ) (text : String) : PageDetection :=
  let stripped := pyStrip text
  let char_count := stripped.length
  let frac := printableFrac stripped
  if TEXT_CHAR_THRESHOLD ≤ char_count ∧ MIN_PRINTABLE_FRAC ≤ frac then
    { page_number := page_number
      page_type := PageType.TEXT
      char_count := char_count
      confidence := pyRound (max 0 (min 1 (min 1 ((char_count : ℚ) / 200) * min 1 (frac / 0.9)))) 3 }
  else
    let confidence :=
      if char_count < TEXT_CHAR_THRESHOLD then 1 - (char_count : ℚ) / (TEXT_CHAR_THRESHOLD : ℚ)
      else 1 - frac
    { page_number := page_number
      page_type := PageType.SCANNED
      char_count := char_count
      confidence := pyRound (max 0 (min 1 confidence)) 3 }

/-- `PDFDetector._classify_overall`: TEXT iff all pages are TEXT, SCANNED
iff none are (and for an empty page list), else MIXED. -/
def classifyOverall (pages : List PageDetection) : PageType :=
  if pages.isEmpty then PageType.SCANNED
  else
    let text_count := (pages.filter (fun p => p.page_type = PageType.TEXT)).length
    let frac : ℚ := (text_count : ℚ) / (pages.length : ℚ)
    if 1 ≤ frac then PageType.TEXT
    else if frac ≤ 0 then PageType.SCANNED
    else PageType.MIXED

/-- `PDFDetector.detect` over the list of extracted page texts. -/
structure DetectionResult where
  overall_type : PageType
  total_pages : ℕ
  pages : List PageDetection
deriving DecidableEq, Repr

/-- Document-level detection: classify every page, then the overall type. -/
def detect (pageTexts : List String) : DetectionResult :=
  let pages := pageTexts.enum.map (fun (i, t) => detectPage (i + 1) t)
  { overall_type := classifyOverall pages
    total_pages := pages.length
    pages := pages }

end Sidecar.Detector

namespace Sidecar.Stress

/-! ## Stress-test reference ranges (test_types/stress/reference_ranges.py) -/

open Sidecar

/-- `ClassificationResult` dataclass. -/
structure ClassificationResult where
  status : SeverityStatus
  direction : AbnormalityDirection
  reference_range_str : String
deriving DecidableEq, Repr

/-- `RangeThresholds` dataclass (threshold tuple per code). -/
structure RangeThresholds where
  normal_min : Option ℚ := none
  normal_max : Option ℚ := none
  mild_min : Option ℚ := none
  mild_max : Option ℚ := none
  moderate_min : Option ℚ := none
  moderate_max : Option ℚ := none
  severe_low : Option ℚ := none
  severe_high : Option ℚ := none
  unit : String := ""
deriving DecidableEq, Repr

/-- `REFERENCE_RANGES` table, in source order. -/
def REFERENCE_RANGES : List (String × RangeThresholds) :=
  [ ("METs",
      { normal_min := some 7.0, mild_min := some 5.0, moderate_min := some 3.0,
        severe_low := some 3.0, unit := "METs" }),
    ("MPHR%",
      { normal_min := some 85.0, mild_min := some 75.0, moderate_min := some 65.0,
        severe_low := some 65.0, unit := "%" }),
    ("Peak_HR",
      { normal_min := some 100.0, normal_max := some 220.0, unit := "bpm" }),
    ("Rest_HR",
      { normal_min := some 50.0, normal_max := some 100.0, unit := "bpm" }),
    ("Peak_SBP",
      { normal_max := some 210.0, mild_max := some 230.0, moderate_max := some 250.0,
        severe_high := some 250.0, unit := "mmHg" }),
    ("ST_Depression",
      { normal_max := some 0.5, mild_max := some 1.0, moderate_max := some 2.0,
        severe_high := some 2.0, unit := "mm" }),
    ("Exercise_Duration",
      { normal_min := some 9.0, mild_min := some 6.0, moderate_min := some 3.0,
        severe_low := some 3.0, unit := "min" }),
    ("Duke_Score",
      { normal_min := some 5.0, mild_min := some (-10.0), severe_low := some (-10.0),
        unit := "" }),
    ("RPP",
      { normal_min := some 20000.0, normal_max := some 35000.0, unit := "" }) ]

/-- `dict.get` on the reference-range table. -/
def lookupRange (abbreviation : String) : Option RangeThresholds :=
  (REFERENCE_RANGES.lookup abbreviation)

/-- `_format_reference_range`. -/
def formatReferenceRange (rr : RangeThresholds) : String :=
  let unit := if rr.unit ≠ "" then " " ++ rr.unit else ""
  match rr.normal_min, rr.normal_max with
  | some lo, some hi => pyFloatRepr lo ++ "-" ++ pyFloatRepr hi ++ unit
  | some lo, none => ">= " ++ pyFloatRepr lo ++ unit
  | none, some hi => "<= " ++ pyFloatRepr hi ++ unit
  | none, none => "N/A"

/-- `_classify_above`. -/
def classifyAbove (value : ℚ) (rr : RangeThresholds) : SeverityStatus :=
  if optHolds rr.severe_high (fun t => t ≤ value) then SeverityStatus.SEVERELY_ABNORMAL
  else if optHolds rr.moderate_max (fun t => t < value) then SeverityStatus.SEVERELY_ABNORMAL
  else if optHolds rr.mild_max (fun t => t < value) then SeverityStatus.MODERATELY_ABNORMAL
  else SeverityStatus.MILDLY_ABNORMAL

/-- `_classify_below`. -/
def classifyBelow (value : ℚ) (rr : RangeThresholds) : SeverityStatus :=
  if optHolds rr.severe_low (fun t => value ≤ t) then SeverityStatus.SEVERELY_ABNORMAL
  else if optHolds rr.moderate_min (fun t => value < t) then SeverityStatus.SEVERELY_ABNORMAL
  else if optHolds rr.mild_min (fun t => value < t) then SeverityStatus.MODERATELY_ABNORMAL
  else SeverityStatus.MILDLY_ABNORMAL

/-- `classify_measurement(abbreviation, value)`. -/
def classify_measurement (abbreviation : String) (value : ℚ) : ClassificationResult :=
  match lookupRange abbreviation with
  | none =>
      { status := SeverityStatus.UNDETERMINED
        direction := AbnormalityDirection.NORMAL
        reference_range_str := "No reference range available" }
  | some rr =>
      let ref_str := formatReferenceRange rr
      if optHolds rr.normal_max (fun t => t < value) then
        { status := classifyAbove value rr
          direction := AbnormalityDirection.ABOVE_NORMAL
          reference_range_str := ref_str }
      else if optHolds rr.normal_min (fun t => value < t) then
        { status := classifyBelow value rr
          direction := AbnormalityDirection.BELOW_NORMAL
          reference_range_str := ref_str }
      else
        { status := SeverityStatus.NORMAL
          direction := AbnormalityDirection.NORMAL
          reference_range_str := ref_str }

end Sidecar.Stress

namespace Sidecar.Reg

/-! ## Test-Type Registry & Detector (test_types/registry.py)

Handlers are runtime-registered polymorphic objects; the embedding carries
exactly the capability surface `detect` uses: id, keywords, a detection
score (`none` models a raised exception, which the registry catches and
skips), the generic-fallback marker, and subtype resolution.  The three
`_HEADER_PATTERNS` regexes are modelled as oracle functions
`String → Option String` returning `m.group(1)` of a successful
`pattern.search`, so theorems hold for every possible match outcome. -/

open Sidecar

/-- The slice of an Extraction Result that detection reads. -/
structure ExtractionResult where
  full_text : String

/-- A registered test-type handler (`BaseTestType` capability surface).
`isGeneric` models `isinstance(handler, GenericTestType)`; the
`GenericTestType` fallback handler class is referenced by the registry but
lives outside the extraction core sources. -/
structure Handler where
  test_type_id : String
  keywords : List String
  detectScore : ExtractionResult → Option ℚ
  isGeneric : Bool
  resolveSubtype : ExtractionResult → Option (String × String)

/-- `TestTypeRegistry` state: `_handlers` and `_subtype_parents`, both
Python dicts kept in insertion order. -/
structure Registry where
  handlers : List (String × Handler)
  subtypeParents : List (String × Handler)

/-- `str.rstrip(".")`. -/
def rstripDot (s : String) : String :=
  (s.data.reverse.dropWhile (fun c => c = '.')).reverse.asString

/-- `TestTypeRegistry.resolve`: subtype-parent match, then exact-id match,
then best (longest-keyword) substring match between the query and any
handler keyword. -/
def resolve (reg : Registry) (type_id_or_name : String) : Option (String × Handler) :=
  match reg.subtypeParents.lookup type_id_or_name with
  | some parent => some (type_id_or_name, parent)
  | none =>
  match reg.handlers.lookup type_id_or_name with
  | some h => some (type_id_or_name, h)
  | none =>
    let query := pyLower type_id_or_name
    let step := fun (st : Option (String × Handler) × ℕ) (p : String × Handler) =>
      p.2.keywords.foldl
        (fun st kw =>
          if (pyIn (pyLower kw) query || pyIn query (pyLower kw))
              && decide (st.2 < kw.length) then
            (some (p.1, p.2), kw.length)
          else st)
        st
    (reg.handlers.foldl step (none, 0)).1

/-- The pattern loop of `TestTypeRegistry.detect_from_header`: the first
matched label that resolves wins, with fixed confidence `0.85`. -/
def headerScan (reg : Registry) :
    List (String → Option String) → String → Option String × ℚ
  | [], _ => (none, 0)
  | p :: rest, header_text =>
    match p header_text with
    | none => headerScan reg rest header_text
    | some g =>
      let label := rstripDot (pyStrip g)
      match resolve reg label with
      | some (resolved_id, _) => (some resolved_id, 0.85)
      | none => headerScan reg rest header_text

/-- `TestTypeRegistry.detect_from_header`: scan the first 500 characters
with each header pattern in order (`headerScan`). -/
def detect_from_header (pats : List (String → Option String)) (reg : Registry)
    (er : ExtractionResult) : Option String × ℚ :=
  headerScan reg pats (pyTake er.full_text 500)

/-- Correction cache `{detected_type: {corrected_type: count}}` as nested
association lists in insertion order. -/
def CorrectionCache : Type := List (String × List (String × ℕ))

/-- Add `v` to key `k` of an ordered association list (Python dict
`d[k] = d.get(k, 0) + v`: value updated in place, position preserved). -/
def bumpAssoc (l : List (String × ℕ)) (k : String) (v : ℕ) : List (String × ℕ) :=
  match l with
  | [] => [(k, v)]
  | (k', v') :: rest =>
      if k' = k then (k', v' + v) :: rest else (k', v') :: bumpAssoc rest k v

/-- The `boost_for` aggregation of `_apply_correction_adjustments`:
total correction count per corrected-TO type across the whole cache. -/
def boostFor (cache : CorrectionCache) : List (String × ℕ) :=
  cache.foldl
    (fun acc p => p.2.foldl (fun acc q => bumpAssoc acc q.1 q.2) acc)
    []

/-- `sum(corrections.values())`. -/
def sumCounts (l : List (String × ℕ)) : ℕ :=
  (l.map Prod.snd).sum

/-- `_apply_correction_adjustments`: penalty `-0.03` per correction away
from a type (capped at `-0.10`), boost `+0.03` per correction to it
(capped at `+0.10`), result clamped into `[0, 1]`; an empty cache leaves
scores untouched. -/
def applyCorrectionAdjustments (cache : CorrectionCache)
    (scores : List (String × ℚ × Handler)) : List (String × ℚ × Handler) :=
  if cache.isEmpty then scores
  else
    let boost_for := boostFor cache
    scores.map (fun s =>
      let adj : ℚ := 0
      let adj :=
        match cache.lookup s.1 with
        | some corrections => adj - min ((sumCounts corrections : ℚ) * 0.03) 0.10
        | none => adj
      let adj :=
        match boost_for.lookup s.1 with
        | some n => adj + min ((n : ℚ) * 0.03) 0.10
        | none => adj
      (s.1, max 0 (min 1 (s.2.1 + adj)), s.2.2))

/-- `scores.sort(key=..., reverse=True)`: stable descending sort by
confidence. -/
def sortDescByConf (scores : List (String × ℚ × Handler)) :
    List (String × ℚ × Handler) :=
  scores.mergeSort (fun a b => decide (b.2.1 ≤ a.2.1))

/-- `TestTypeRegistry.detect`: header pre-pass, per-handler scoring with
exception-safe skipping, correction adjustment, descending sort,
generic-vs-specialized disambiguation within `0.15`, and subtype
resolution by the winning handler. -/
def detect (pats : List (String → Option String)) (cache : CorrectionCache)
    (reg : Registry) (er : ExtractionResult) : Option String × ℚ :=
  match detect_from_header pats reg er with
  | (some header_id, header_conf) => (some header_id, header_conf)
  | (none, _) =>
    let scores := reg.handlers.foldl
      (fun acc p =>
        match p.2.detectScore er with
        | none => acc
        | some confidence =>
            if 0 < confidence then acc ++ [(p.1, confidence, p.2)] else acc)
      []
    if scores.isEmpty then (none, 0)
    else
      let adjusted := applyCorrectionAdjustments cache scores
      match sortDescByConf adjusted with
      | [] => (none, 0)
      | best :: restSorted =>
        let best :=
          match restSorted with
          | second :: _ =>
              if decide (best.2.1 - second.2.1 ≤ 0.15)
                  && best.2.2.isGeneric && !second.2.2.isGeneric then
                second
              else best
          | [] => best
        let best_id :=
          match best.2.2.resolveSubtype er with
          | some sub => sub.1
          | none => best.1
        (some best_id, best.2.1)

end Sidecar.Reg

namespace Sidecar.OCR

/-! ## OCR Extractor (extraction/ocr_extractor.py)

Rasterisation (`pdf2image`), preprocessing and the Tesseract calls in
`_ocr_with_best_psm` are external; per page they either raise, produce no
image, or produce a corrected text with an average confidence.  The
embedding abstracts that whole per-page `try` body as a `PageOutcome`
oracle and keeps the page loop, the empty-result degradation, and the
result assembly of `extract_pages`. -/

open Sidecar

/-- Outcome of the per-page raster-preprocess-recognise pipeline. -/
inductive PageOutcome where
  | failure
  | noImages
  | ok (text : String) (conf : ℚ)

/-- `OCRExtractor._empty_result`. -/
def emptyResult (page_num : ℕ) : PageExtractionResult :=
  { page_number := page_num
    text := ""
    extraction_method := "ocr"
    confidence := 0
    char_count := 0 }

/-- `OCRExtractor.extract_pages`: one result per requested page, in order;
a page whose pipeline raises or yields no image degrades to the empty
result and the loop continues. -/
def extract_pages (pipeline : ℕ → PageOutcome) : List ℕ → List PageExtractionResult
  | [] => []
  | page_num :: rest =>
      (match pipeline page_num with
       | PageOutcome.failure => emptyResult page_num
       | PageOutcome.noImages => emptyResult page_num
       | PageOutcome.ok text conf =>
           { page_number := page_num
             text := text
             extraction_method := "ocr"
             confidence := pyRound conf 3
             char_count := text.data.length }) :: extract_pages pipeline rest

end Sidecar.OCR

namespace Sidecar.Echo

/-! ## Echo measurement extraction (test_types/echo/measurements.py)

Data-driven regex extraction.  The pattern table is embedded verbatim
(with the `{_SEP}`/`{_NUM}` interpolations resolved as in the source);
`re.search` itself is an external engine, modelled as an oracle
`search : pattern → full_text → Option (value, match.group())` where
`value` is the parsed `value` capture group (`none` covers both a failed
search and a failed `float()` conversion, which the loop treats alike).
The special `_EF_RANGE_RE` search is likewise an oracle returning the two
numeric groups and `match.group()`. -/

open Sidecar

/-- `RawMeasurement` dataclass (echo variant, no prior values). -/
structure RawMeasurement where
  name : String
  abbreviation : String
  value : ℚ
  unit : String
  raw_text : String
  page_number : Option ℕ := none
deriving DecidableEq, Repr

/-- `MeasurementDef` dataclass. -/
structure MeasurementDef where
  name : String
  abbreviation : String
  unit : String
  patterns : List String
  value_min : ℚ := 0.0
  value_max : ℚ := 999.0
deriving DecidableEq, Repr

/-- Oracle for `re.search(pattern, full_text)` on a measurement pattern:
the parsed `value` group and the full matched text. -/
def SearchOracle : Type := String → String → Option (ℚ × String)

/-- Oracle for `_EF_RANGE_RE.search(full_text)`: the two numeric groups
(low, high) and the full matched text. -/
def EFOracle : Type := String → Option (ℚ × ℚ × String)

/-- Source text of `_EF_RANGE_RE`. -/
def EF_RANGE_RE : String :=
  "(?i)(?:LVEF|EF|ejection\\s+fraction)[\\s:=]+\\s*(\\d+\\.?\\d*)\\s*[-\\u2013to]+\\s*(\\d+\\.?\\d*)\\s*%?"

/-- `MEASUREMENT_DEFS` table, in source order. -/
def MEASUREMENT_DEFS : List MeasurementDef :=
[
  { name := "LV Internal Diameter, Diastole",
    abbreviation := "LVIDd",
    unit := "cm",
    patterns := [
      "(?i)LVIDd[\\s:=]+\\s*(?P<value>\\d+\\.?\\d*)\\s*(?:cm|mm)?",
      "(?i)LV\\s*\\(D\\)[\\s:=]+\\s*(?P<value>\\d+\\.?\\d*)\\s*(?:cm|mm)?",
      "(?i)LV\\s+(?:internal\\s+)?(?:diameter|dimension)[\\s,]*(?:diastol|end[- ]?diastol)[\\s:=]+\\s*(?P<value>\\d+\\.?\\d*)\\s*(?:cm|mm)?"],
    value_min := 1.0, value_max := 10.0 },
  { name := "LV Internal Diameter, Systole",
    abbreviation := "LVIDs",
    unit := "cm",
    patterns := [
      "(?i)LVIDs[\\s:=]+\\s*(?P<value>\\d+\\.?\\d*)\\s*(?:cm|mm)?",
      "(?i)LV\\s*\\(S\\)[\\s:=]+\\s*(?P<value>\\d+\\.?\\d*)\\s*(?:cm|mm)?",
      "(?i)LV\\s+(?:internal\\s+)?(?:diameter|dimension)[\\s,]*(?:systol|end[- ]?systol)[\\s:=]+\\s*(?P<value>\\d+\\.?\\d*)\\s*(?:cm|mm)?"],
    value_min := 1.0, value_max := 8.0 },
  { name := "Interventricular Septum, Diastole",
    abbreviation := "IVSd",
    unit := "cm",
    patterns := [
      "(?i)IVSd[\\s:=]+\\s*(?P<value>\\d+\\.?\\d*)\\s*(?:cm|mm)?",
      "(?i)IVS\\s*\\(D\\)[\\s:=]+\\s*(?P<value>\\d+\\.?\\d*)\\s*(?:cm|mm)?",
      "(?i)(?:interventricular|IV)\\s+sept(?:um|al)[\\s,]*(?:diastol|d\\.?)[\\s:=]+\\s*(?P<value>\\d+\\.?\\d*)\\s*(?:cm|mm)?",
      "(?i)septal\\s+(?:wall\\s+)?thickness[\\s:=]+\\s*(?P<value>\\d+\\.?\\d*)\\s*(?:cm|mm)?"],
    value_min := 0.3, value_max := 3.0 },
  { name := "LV Posterior Wall, Diastole",
    abbreviation := "LVPWd",
    unit := "cm",
    patterns := [
      "(?i)LVPWd[\\s:=]+\\s*(?P<value>\\d+\\.?\\d*)\\s*(?:cm|mm)?",
      "(?i)LVPW\\s*\\(D\\)[\\s:=]+\\s*(?P<value>\\d+\\.?\\d*)\\s*(?:cm|mm)?",
      "(?i)(?:LV\\s+)?(?:posterior|post)\\s+wall[\\s,]*(?:diastol|d\\.?)[\\s:=]+\\s*(?P<value>\\d+\\.?\\d*)\\s*(?:cm|mm)?",
      "(?i)PW\\s*d[\\s:=]+\\s*(?P<value>\\d+\\.?\\d*)\\s*(?:cm|mm)?"],
    value_min := 0.3, value_max := 3.0 },
  { name := "Left Ventricular Ejection Fraction",
    abbreviation := "LVEF",
    unit := "%",
    patterns := [
      "(?i)(?:LVEF|EF)[\\s:=]+\\s*(?P<value>\\d+\\.?\\d*)\\s*%?",
      "(?i)ejection\\s+fraction[\\s:=]+\\s*(?P<value>\\d+\\.?\\d*)\\s*%?",
      "(?i)(?:LVEF|EF|ejection\\s+fraction)\\s+(?:is\\s+|of\\s+|estimated\\s+(?:at\\s+)?)?(?P<value>\\d+\\.?\\d*)\\s*%?"],
    value_min := 5.0, value_max := 95.0 },
  { name := "Fractional Shortening",
    abbreviation := "FS",
    unit := "%",
    patterns := [
      "(?i)(?:fractional\\s+shortening|FS)[\\s:=]+\\s*(?P<value>\\d+\\.?\\d*)\\s*%?"],
    value_min := 5.0, value_max := 60.0 },
  { name := "Left Atrial Diameter",
    abbreviation := "LA",
    unit := "cm",
    patterns := [
      "(?i)(?:LA|left\\s+atri(?:um|al))\\s+(?:diam(?:eter)?|dimension|size)[\\s:=]+\\s*(?P<value>\\d+\\.?\\d*)\\s*(?:cm|mm)?",
      "(?i)LA[\\s:=]+\\s*(?P<value>\\d+\\.?\\d*)\\s*cm"],
    value_min := 1.0, value_max := 8.0 },
  { name := "LA Volume Index",
    abbreviation := "LAVI",
    unit := "mL/m2",
    patterns := [
      "(?i)(?:LA\\s+volume\\s+index|LAVI)[\\s:=]+\\s*(?P<value>\\d+\\.?\\d*)\\s*(?:ml\\/m2|mL\\/m2|ml\\/m\\u00b2)?",
      "(?i)left\\s+atrial\\s+volume\\s+index[\\s:=]+\\s*(?P<value>\\d+\\.?\\d*)"],
    value_min := 10.0, value_max := 80.0 },
  { name := "RV Basal Diameter",
    abbreviation := "RVD",
    unit := "cm",
    patterns := [
      "(?i)(?:RV|right\\s+ventricl(?:e|ar))\\s+(?:basal\\s+)?(?:diameter|dimension)[\\s:=]+\\s*(?P<value>\\d+\\.?\\d*)\\s*(?:cm|mm)?"],
    value_min := 1.0, value_max := 6.0 },
  { name := "RA Area",
    abbreviation := "RAA",
    unit := "cm2",
    patterns := [
      "(?i)(?:RA|right\\s+atri(?:um|al))\\s+area[\\s:=]+\\s*(?P<value>\\d+\\.?\\d*)\\s*(?:cm2|cm\\u00b2)?"],
    value_min := 5.0, value_max := 40.0 },
  { name := "Aortic Root Diameter",
    abbreviation := "AoRoot",
    unit := "cm",
    patterns := [
      "(?i)aort(?:a|ic)\\s+(?:root|sinus)[\\s:=]+\\s*(?P<value>\\d+\\.?\\d*)\\s*(?:cm|mm)?",
      "(?i)sinus\\s+(?:of\\s+)?valsalva[\\s:=]+\\s*(?P<value>\\d+\\.?\\d*)\\s*(?:cm|mm)?",
      "(?i)Ao\\s+root[\\s:=]+\\s*(?P<value>\\d+\\.?\\d*)\\s*(?:cm|mm)?"],
    value_min := 1.0, value_max := 6.0 },
  { name := "Aortic Valve Area",
    abbreviation := "AVA",
    unit := "cm2",
    patterns := [
      "(?i)(?:aortic\\s+valve\\s+area|AVA)[\\s:=]+\\s*(?P<value>\\d+\\.?\\d*)\\s*(?:cm2|cm\\u00b2)?"],
    value_min := 0.3, value_max := 5.0 },
  { name := "Mitral Valve E/A Ratio",
    abbreviation := "E/A",
    unit := "",
    patterns := [
      "(?i)E\\/A\\s*(?:ratio)?[\\s:=]+\\s*(?P<value>\\d+\\.?\\d*)",
      "(?i)mitral\\s+(?:inflow\\s+)?E\\/A[\\s:=]+\\s*(?P<value>\\d+\\.?\\d*)"],
    value_min := 0.3, value_max := 4.0 },
  { name := "E/e\x27 Ratio",
    abbreviation := "E/e\x27",
    unit := "",
    patterns := [
      "(?i)E\\/e[\x27\\u2019]\\s*(?:ratio)?[\\s:=]+\\s*(?P<value>\\d+\\.?\\d*)",
      "(?i)E\\/e[\x27\\u2019]\\s*(?:\\(average\\))?\\s*[\\s:=]+\\s*(?P<value>\\d+\\.?\\d*)"],
    value_min := 2.0, value_max := 30.0 },
  { name := "Tricuspid Regurgitation Velocity",
    abbreviation := "TRV",
    unit := "m/s",
    patterns := [
      "(?i)(?:TR|tricuspid\\s+regurgit(?:ation|ant))\\s+(?:peak\\s+)?velocity[\\s:=]+\\s*(?P<value>\\d+\\.?\\d*)\\s*(?:m\\/s)?",
      "(?i)TR\\s+(?:Vmax|jet\\s+velocity)[\\s:=]+\\s*(?P<value>\\d+\\.?\\d*)\\s*(?:m\\/s)?"],
    value_min := 1.0, value_max := 6.0 },
  { name := "RV Systolic Pressure",
    abbreviation := "RVSP",
    unit := "mmHg",
    patterns := [
      "(?i)RVSP[\\s:=]+\\s*(?P<value>\\d+\\.?\\d*)\\s*(?:mmHg)?",
      "(?i)(?:RV|right\\s+ventricular)\\s+systolic\\s+pressure[\\s:=]+\\s*(?P<value>\\d+\\.?\\d*)\\s*(?:mmHg)?",
      "(?i)(?:PA|pulmonary\\s+artery)\\s+systolic\\s+pressure[\\s:=]+\\s*(?P<value>\\d+\\.?\\d*)\\s*(?:mmHg)?",
      "(?i)PASP[\\s:=]+\\s*(?P<value>\\d+\\.?\\d*)\\s*(?:mmHg)?"],
    value_min := 10.0, value_max := 120.0 },
  { name := "Mitral E Velocity",
    abbreviation := "MV_E",
    unit := "cm/s",
    patterns := [
      "(?i)(?:mitral\\s+)?E\\s+(?:wave\\s+)?velocity[\\s:=]+\\s*(?P<value>\\d+\\.?\\d*)\\s*(?:cm\\/s|m\\/s)?",
      "(?i)E\\s+vel(?:ocity)?[\\s:=]+\\s*(?P<value>\\d+\\.?\\d*)\\s*(?:cm\\/s|m\\/s)?"],
    value_min := 20.0, value_max := 200.0 },
  { name := "Mitral A Velocity",
    abbreviation := "MV_A",
    unit := "cm/s",
    patterns := [
      "(?i)(?:mitral\\s+)?A\\s+(?:wave\\s+)?velocity[\\s:=]+\\s*(?P<value>\\d+\\.?\\d*)\\s*(?:cm\\/s|m\\/s)?",
      "(?i)A\\s+vel(?:ocity)?[\\s:=]+\\s*(?P<value>\\d+\\.?\\d*)\\s*(?:cm\\/s|m\\/s)?"],
    value_min := 20.0, value_max := 200.0 },
  { name := "Deceleration Time",
    abbreviation := "DT",
    unit := "ms",
    patterns := [
      "(?i)(?:deceleration|decel)\\s+time[\\s:=]+\\s*(?P<value>\\d+\\.?\\d*)\\s*(?:ms|msec)?",
      "(?i)DT[\\s:=]+\\s*(?P<value>\\d+\\.?\\d*)\\s*(?:ms|msec)?"],
    value_min := 50.0, value_max := 500.0 },
  { name := "IVRT",
    abbreviation := "IVRT",
    unit := "ms",
    patterns := [
      "(?i)IVRT[\\s:=]+\\s*(?P<value>\\d+\\.?\\d*)\\s*(?:ms|msec)?",
      "(?i)isovolumic\\s+relaxation\\s+time[\\s:=]+\\s*(?P<value>\\d+\\.?\\d*)\\s*(?:ms|msec)?"],
    value_min := 30.0, value_max := 200.0 },
  { name := "e\x27 Septal",
    abbreviation := "e\x27_septal",
    unit := "cm/s",
    patterns := [
      "(?i)e[\x27\\u2019]\\s*(?:\\()?septal(?:\\))?[\\s:=]+\\s*(?P<value>\\d+\\.?\\d*)\\s*(?:cm\\/s)?",
      "(?i)septal\\s+e[\x27\\u2019][\\s:=]+\\s*(?P<value>\\d+\\.?\\d*)\\s*(?:cm\\/s)?",
      "(?i)medial\\s+e[\x27\\u2019][\\s:=]+\\s*(?P<value>\\d+\\.?\\d*)\\s*(?:cm\\/s)?"],
    value_min := 2.0, value_max := 20.0 },
  { name := "e\x27 Lateral",
    abbreviation := "e\x27_lateral",
    unit := "cm/s",
    patterns := [
      "(?i)e[\x27\\u2019]\\s*(?:\\()?lateral(?:\\))?[\\s:=]+\\s*(?P<value>\\d+\\.?\\d*)\\s*(?:cm\\/s)?",
      "(?i)lateral\\s+e[\x27\\u2019][\\s:=]+\\s*(?P<value>\\d+\\.?\\d*)\\s*(?:cm\\/s)?"],
    value_min := 2.0, value_max := 25.0 },
  { name := "TAPSE",
    abbreviation := "TAPSE",
    unit := "cm",
    patterns := [
      "(?i)TAPSE[\\s:=]+\\s*(?P<value>\\d+\\.?\\d*)\\s*(?:cm|mm)?",
      "(?i)tricuspid\\s+annular\\s+plane\\s+systolic\\s+excursion[\\s:=]+\\s*(?P<value>\\d+\\.?\\d*)"],
    value_min := 0.5, value_max := 4.0 } ]

/-- `_find_page`: first page whose whitespace-normalised text contains the
normalised snippet. -/
def findPage (snippet : String) (pages : List PageExtractionResult) : Option ℕ :=
  let normalized := wsNormalize snippet
  pages.findSome? (fun page =>
    if pyIn normalized (wsNormalize page.text) then some page.page_number else none)

/-- The inner pattern loop of `extract_measurements`: first pattern whose
search yields a value inside the definition's sanity bounds (a match whose
value parses but falls outside the bounds is skipped, `continue`-style). -/
def firstPatternHit (search : SearchOracle) (full_text : String)
    (mdef : MeasurementDef) : List String → Option (ℚ × String)
  | [] => none
  | p :: rest =>
    match search p full_text with
    | none => firstPatternHit search full_text mdef rest
    | some (value, g) =>
        if mdef.value_min ≤ value ∧ value ≤ mdef.value_max then some (value, g)
        else firstPatternHit search full_text mdef rest

/-- One iteration of the `for mdef in MEASUREMENT_DEFS` loop: state is
(results so far, seen codes). -/
def extractStep (search : SearchOracle) (full_text : String)
    (pages : List PageExtractionResult)
    (st : List RawMeasurement × List String) (mdef : MeasurementDef) :
    List RawMeasurement × List String :=
  if st.2.contains mdef.abbreviation then st
  else
    match firstPatternHit search full_text mdef mdef.patterns with
    | none => st
    | some (value, g) =>
        (st.1 ++
          [{ name := mdef.name
             abbreviation := mdef.abbreviation
             value := value
             unit := mdef.unit
             raw_text := pyStrip g
             page_number := findPage g pages }],
         st.2 ++ [mdef.abbreviation])

/-- Initial state of `extract_measurements`: the `_EF_RANGE_RE` special
case ("LVEF 55-60%" takes the rounded midpoint, accepted only when both
endpoints lie in `[5, 95]` and `low < high`). -/
def efRangeInit (efSearch : EFOracle) (full_text : String)
    (pages : List PageExtractionResult) : List RawMeasurement × List String :=
  match efSearch full_text with
  | none => ([], [])
  | some (low, high, g) =>
      if 5.0 ≤ low ∧ low ≤ 95.0 ∧ 5.0 ≤ high ∧ high ≤ 95.0 ∧ low < high then
        let midpoint := (low + high) / 2
        ([{ name := "Left Ventricular Ejection Fraction"
            abbreviation := "LVEF"
            value := pyRound midpoint 1
            unit := "%"
            raw_text := pyStrip g
            page_number := findPage g pages }],
         ["LVEF"])
      else ([], [])

/-- `extract_measurements(full_text, pages)`. -/
def extract_measurements (search : SearchOracle) (efSearch : EFOracle)
    (full_text : String) (pages : List PageExtractionResult) :
    List RawMeasurement :=
  (MEASUREMENT_DEFS.foldl (extractStep search full_text pages)
    (efRangeInit efSearch full_text pages)).1

end Sidecar.Echo

namespace Sidecar.Labs

/-! ## Lab measurement extraction (test_types/labs/measurements.py)

Dual strategy: table-first, then regex fallback, then unit normalization.
The analyte table (names, aliases, units, patterns, sanity bounds) is
embedded verbatim.  `re.search` over the pattern table is the same oracle
shape as for echo; the small `_TEMPORAL_HEADER_PATTERNS` check used only
to tag prior-value columns is abstracted as a Boolean oracle.
`_extract_numeric` (`re.search(r"(\d+\.?\d*)", text.strip())`) is simple
enough to embed concretely. -/

open Sidecar

/-- `PriorValueRaw` dataclass. -/
structure PriorValueRaw where
  value : ℚ
  time_label : String
deriving DecidableEq, Repr

/-- `RawMeasurement` dataclass (labs variant, with prior values). -/
structure RawMeasurement where
  name : String
  abbreviation : String
  value : ℚ
  unit : String
  raw_text : String
  page_number : Option ℕ := none
  prior_values : List PriorValueRaw := []
deriving DecidableEq, Repr

/-- `MeasurementDef` dataclass (labs variant, with table aliases). -/
structure MeasurementDef where
  name : String
  abbreviation : String
  unit : String
  patterns : List String
  table_aliases : List String := []
  value_min : ℚ := 0.0
  value_max : ℚ := 99999.0
deriving DecidableEq, Repr

/-- Oracle for `re.search(pattern, full_text)`, as in the echo module. -/
def SearchOracle : Type := String → String → Option (ℚ × String)

/-- `MEASUREMENT_DEFS` table, in source order. -/
def MEASUREMENT_DEFS : List MeasurementDef :=
[
  { name := "Glucose",
    abbreviation := "GLU",
    unit := "mg/dL",
    table_aliases := ["glucose", "glu", "fasting glucose", "blood glucose"],
    patterns := [
      "(?i)(?:fasting\\s+)?glucose[\\s:=]+\\s*(?P<value>\\d+\\.?\\d*)\\s*(?:mg\\/dL|mg\\/dl)?",
      "(?i)\\bGLU\\b[\\s:=]+\\s*(?P<value>\\d+\\.?\\d*)\\s*(?:mg\\/dL|mg\\/dl)?"],
    value_min := 10.0, value_max := 900.0 },
  { name := "BUN",
    abbreviation := "BUN",
    unit := "mg/dL",
    table_aliases := ["bun", "blood urea nitrogen", "urea nitrogen"],
    patterns := [
      "(?i)\\bBUN\\b[\\s:=]+\\s*(?P<value>\\d+\\.?\\d*)\\s*(?:mg\\/dL|mg\\/dl)?",
      "(?i)blood\\s+urea\\s+nitrogen[\\s:=]+\\s*(?P<value>\\d+\\.?\\d*)\\s*(?:mg\\/dL)?",
      "(?i)urea\\s+nitrogen[\\s:=]+\\s*(?P<value>\\d+\\.?\\d*)\\s*(?:mg\\/dL)?"],
    value_min := 1.0, value_max := 150.0 },
  { name := "Creatinine",
    abbreviation := "CREAT",
    unit := "mg/dL",
    table_aliases := ["creatinine", "creat", "serum creatinine"],
    patterns := [
      "(?i)creatinine[\\s:=]+\\s*(?P<value>\\d+\\.?\\d*)\\s*(?:mg\\/dL|mg\\/dl)?",
      "(?i)\\bCREAT\\b[\\s:=]+\\s*(?P<value>\\d+\\.?\\d*)\\s*(?:mg\\/dL)?"],
    value_min := 0.1, value_max := 20.0 },
  { name := "eGFR",
    abbreviation := "EGFR",
    unit := "mL/min/1.73m2",
    table_aliases := ["egfr", "gfr", "estimated gfr", "est. gfr", "estimated glomerular filtration rate"],
    patterns := [
      "(?i)e?GFR[\\s:=]+\\s*(?P<value>\\d+\\.?\\d*)\\s*(?:mL\\/min)?",
      "(?i)glomerular\\s+filtration\\s+rate[\\s:=]+\\s*(?P<value>\\d+\\.?\\d*)"],
    value_min := 1.0, value_max := 200.0 },
  { name := "Sodium",
    abbreviation := "NA",
    unit := "mEq/L",
    table_aliases := ["sodium", "na"],
    patterns := [
      "(?i)sodium[\\s:=]+\\s*(?P<value>\\d+\\.?\\d*)\\s*(?:mEq\\/L|mmol\\/L)?",
      "(?i)\\bNa\\b[\\s:=]+\\s*(?P<value>\\d+\\.?\\d*)\\s*(?:mEq\\/L|mmol\\/L)?"],
    value_min := 100.0, value_max := 180.0 },
  { name := "Potassium",
    abbreviation := "K",
    unit := "mEq/L",
    table_aliases := ["potassium", "k"],
    patterns := [
      "(?i)potassium[\\s:=]+\\s*(?P<value>\\d+\\.?\\d*)\\s*(?:mEq\\/L|mmol\\/L)?",
      "(?i)\\bK\\b[\\s:=]+\\s*(?P<value>\\d+\\.?\\d*)\\s*(?:mEq\\/L|mmol\\/L)?"],
    value_min := 1.5, value_max := 9.0 },
  { name := "Chloride",
    abbreviation := "CL",
    unit := "mEq/L",
    table_aliases := ["chloride", "cl"],
    patterns := [
      "(?i)chloride[\\s:=]+\\s*(?P<value>\\d+\\.?\\d*)\\s*(?:mEq\\/L|mmol\\/L)?",
      "(?i)\\bCl\\b[\\s:=]+\\s*(?P<value>\\d+\\.?\\d*)\\s*(?:mEq\\/L|mmol\\/L)?"],
    value_min := 70.0, value_max := 140.0 },
  { name := "CO2/Bicarbonate",
    abbreviation := "CO2",
    unit := "mEq/L",
    table_aliases := ["co2", "carbon dioxide", "bicarbonate", "bicarb", "hco3"],
    patterns := [
      "(?i)(?:CO2|carbon\\s+dioxide|bicarbonate|bicarb|HCO3)[\\s:=]+\\s*(?P<value>\\d+\\.?\\d*)\\s*(?:mEq\\/L|mmol\\/L)?"],
    value_min := 5.0, value_max := 50.0 },
  { name := "Calcium",
    abbreviation := "CA",
    unit := "mg/dL",
    table_aliases := ["calcium", "ca", "total calcium"],
    patterns := [
      "(?i)(?:total\\s+)?calcium[\\s:=]+\\s*(?P<value>\\d+\\.?\\d*)\\s*(?:mg\\/dL)?",
      "(?i)\\bCa\\b[\\s:=]+\\s*(?P<value>\\d+\\.?\\d*)\\s*(?:mg\\/dL)?"],
    value_min := 4.0, value_max := 18.0 },
  { name := "Total Protein",
    abbreviation := "TP",
    unit := "g/dL",
    table_aliases := ["total protein", "protein, total", "tp"],
    patterns := [
      "(?i)total\\s+protein[\\s:=]+\\s*(?P<value>\\d+\\.?\\d*)\\s*(?:g\\/dL|g\\/dl)?",
      "(?i)\\bTP\\b[\\s:=]+\\s*(?P<value>\\d+\\.?\\d*)\\s*(?:g\\/dL)?"],
    value_min := 2.0, value_max := 15.0 },
  { name := "Albumin",
    abbreviation := "ALB",
    unit := "g/dL",
    table_aliases := ["albumin", "alb"],
    patterns := [
      "(?i)albumin[\\s:=]+\\s*(?P<value>\\d+\\.?\\d*)\\s*(?:g\\/dL|g\\/dl)?",
      "(?i)\\bALB\\b[\\s:=]+\\s*(?P<value>\\d+\\.?\\d*)\\s*(?:g\\/dL)?"],
    value_min := 1.0, value_max := 8.0 },
  { name := "Total Bilirubin",
    abbreviation := "TBILI",
    unit := "mg/dL",
    table_aliases := ["total bilirubin", "bilirubin, total", "bilirubin total", "t. bilirubin", "tbili", "t. bili", "t bili"],
    patterns := [
      "(?i)(?:total\\s+)?bilirubin[\\s:=]+\\s*(?P<value>\\d+\\.?\\d*)\\s*(?:mg\\/dL)?",
      "(?i)\\bTBILI?\\b[\\s:=]+\\s*(?P<value>\\d+\\.?\\d*)\\s*(?:mg\\/dL)?",
      "(?i)T\\.?\\s*Bili[\\s:=]+\\s*(?P<value>\\d+\\.?\\d*)\\s*(?:mg\\/dL)?"],
    value_min := 0.0, value_max := 30.0 },
  { name := "AST",
    abbreviation := "AST",
    unit := "U/L",
    table_aliases := ["ast", "sgot", "aspartate aminotransferase", "ast (sgot)"],
    patterns := [
      "(?i)\\bAST\\b[\\s:=]+\\s*(?P<value>\\d+\\.?\\d*)\\s*(?:U\\/L|u\\/l|IU\\/L)?",
      "(?i)\\bSGOT\\b[\\s:=]+\\s*(?P<value>\\d+\\.?\\d*)\\s*(?:U\\/L)?",
      "(?i)aspartate\\s+aminotransferase[\\s:=]+\\s*(?P<value>\\d+\\.?\\d*)"],
    value_min := 1.0, value_max := 5000.0 },
  { name := "ALT",
    abbreviation := "ALT",
    unit := "U/L",
    table_aliases := ["alt", "sgpt", "alanine aminotransferase", "alt (sgpt)"],
    patterns := [
      "(?i)\\bALT\\b[\\s:=]+\\s*(?P<value>\\d+\\.?\\d*)\\s*(?:U\\/L|u\\/l|IU\\/L)?",
      "(?i)\\bSGPT\\b[\\s:=]+\\s*(?P<value>\\d+\\.?\\d*)\\s*(?:U\\/L)?",
      "(?i)alanine\\s+aminotransferase[\\s:=]+\\s*(?P<value>\\d+\\.?\\d*)"],
    value_min := 1.0, value_max := 5000.0 },
  { name := "Alkaline Phosphatase",
    abbreviation := "ALP",
    unit := "U/L",
    table_aliases := ["alkaline phosphatase", "alk phos", "alk. phos.", "alp", "alkp"],
    patterns := [
      "(?i)(?:alkaline\\s+phosphatase|alk\\.?\\s*phos\\.?|ALP|ALKP)[\\s:=]+\\s*(?P<value>\\d+\\.?\\d*)\\s*(?:U\\/L|u\\/l|IU\\/L)?"],
    value_min := 1.0, value_max := 2000.0 },
  { name := "WBC",
    abbreviation := "WBC",
    unit := "K/uL",
    table_aliases := ["wbc", "white blood cell count", "white blood cells", "leukocytes", "leucocytes", "tlc", "total leucocyte count", "total leukocyte count"],
    patterns := [
      "(?i)\\bWBC\\b[\\s:=]+\\s*(?P<value>\\d+\\.?\\d*)\\s*(?:K\\/uL|k\\/ul|x10[\u00b3\\^]3\\/uL|10\\*3\\/uL)?",
      "(?i)white\\s+blood\\s+cell(?:s)?(?:\\s+count)?[\\s:=]+\\s*(?P<value>\\d+\\.?\\d*)"],
    value_min := 0.1, value_max := 100.0 },
  { name := "WBC",
    abbreviation := "WBC_CUMM",
    unit := "/cumm",
    table_aliases := ["tlc", "total leucocyte count", "total leukocyte count"],
    patterns := [
      "(?i)\\bTLC\\b(?:\\s*\\(.*?\\))?[\\s:=]+\\s*(?P<value>\\d+\\.?\\d*)\\s*(?:\\/\\s*cumm|\\/\\s*cu\\s*mm)",
      "(?i)total\\s+le[u]?cocyte\\s+count[\\s:=]+\\s*(?P<value>\\d+\\.?\\d*)\\s*(?:\\/\\s*cumm|\\/\\s*cu\\s*mm)?"],
    value_min := 100.0, value_max := 100000.0 },
  { name := "RBC",
    abbreviation := "RBC",
    unit := "M/uL",
    table_aliases := ["rbc", "red blood cell count", "red blood cells", "erythrocytes"],
    patterns := [
      "(?i)\\bRBC\\b[\\s:=]+\\s*(?P<value>\\d+\\.?\\d*)\\s*(?:M\\/uL|m\\/ul|x10[\u2076\\^]6\\/uL|10\\*6\\/uL|mill\\/\\s*cumm)?",
      "(?i)red\\s+blood\\s+cell(?:s)?(?:\\s+count)?[\\s:=]+\\s*(?P<value>\\d+\\.?\\d*)"],
    value_min := 1.0, value_max := 10.0 },
  { name := "Hemoglobin",
    abbreviation := "HGB",
    unit := "g/dL",
    table_aliases := ["hemoglobin", "haemoglobin", "hgb", "hb"],
    patterns := [
      "(?i)ha?emoglobin[\\s:=]+\\s*(?P<value>\\d+\\.?\\d*)\\s*(?:g\\/dL|g\\/dl|gm\\/\\s*dl)?",
      "(?i)\\bHGB\\b[\\s:=]+\\s*(?P<value>\\d+\\.?\\d*)\\s*(?:g\\/dL|gm\\/\\s*dl)?",
      "(?i)\\bHb\\b[\\s:=]+\\s*(?P<value>\\d+\\.?\\d*)\\s*(?:g\\/dL|gm\\/\\s*dl)?"],
    value_min := 3.0, value_max := 25.0 },
  { name := "Hematocrit",
    abbreviation := "HCT",
    unit := "%",
    table_aliases := ["hematocrit", "haematocrit", "hct", "pcv", "pcv/haematocrit", "pcv/hematocrit", "packed cell volume"],
    patterns := [
      "(?i)ha?ematocrit[\\s:=]+\\s*(?P<value>\\d+\\.?\\d*)\\s*%?",
      "(?i)\\bHCT\\b[\\s:=]+\\s*(?P<value>\\d+\\.?\\d*)\\s*%?",
      "(?i)\\bPCV\\b(?:\\/ha?ematocrit)?[\\s:=]+\\s*(?P<value>\\d+\\.?\\d*)\\s*%?",
      "(?i)packed\\s+cell\\s+volume[\\s:=]+\\s*(?P<value>\\d+\\.?\\d*)\\s*%?"],
    value_min := 10.0, value_max := 75.0 },
  { name := "MCV",
    abbreviation := "MCV",
    unit := "fL",
    table_aliases := ["mcv", "mean corpuscular volume"],
    patterns := [
      "(?i)\\bMCV\\b[\\s:=]+\\s*(?P<value>\\d+\\.?\\d*)\\s*(?:fL|fl)?",
      "(?i)mean\\s+corpuscular\\s+volume[\\s:=]+\\s*(?P<value>\\d+\\.?\\d*)"],
    value_min := 40.0, value_max := 150.0 },
  { name := "MCH",
    abbreviation := "MCH",
    unit := "pg",
    table_aliases := ["mch", "mean corpuscular hemoglobin"],
    patterns := [
      "(?i)\\bMCH\\b(?!C)[\\s:=]+\\s*(?P<value>\\d+\\.?\\d*)\\s*(?:pg)?",
      "(?i)mean\\s+corpuscular\\s+hemoglobin(?!\\s+conc)[\\s:=]+\\s*(?P<value>\\d+\\.?\\d*)"],
    value_min := 10.0, value_max := 55.0 },
  { name := "MCHC",
    abbreviation := "MCHC",
    unit := "g/dL",
    table_aliases := ["mchc", "mean corpuscular hemoglobin concentration"],
    patterns := [
      "(?i)\\bMCHC\\b[\\s:=]+\\s*(?P<value>\\d+\\.?\\d*)\\s*(?:g\\/dL|g\\/dl|%)?",
      "(?i)mean\\s+corpuscular\\s+hemoglobin\\s+conc(?:entration)?[\\s:=]+\\s*(?P<value>\\d+\\.?\\d*)"],
    value_min := 20.0, value_max := 45.0 },
  { name := "RDW",
    abbreviation := "RDW",
    unit := "%",
    table_aliases := ["rdw", "red cell distribution width", "rdw-cv"],
    patterns := [
      "(?i)\\bRDW\\b(?:-CV)?[\\s:=]+\\s*(?P<value>\\d+\\.?\\d*)\\s*%?",
      "(?i)red\\s+cell\\s+distribution\\s+width[\\s:=]+\\s*(?P<value>\\d+\\.?\\d*)"],
    value_min := 5.0, value_max := 35.0 },
  { name := "Platelet Count",
    abbreviation := "PLT",
    unit := "K/uL",
    table_aliases := ["platelet count", "platelets", "plt"],
    patterns := [
      "(?i)platelet(?:s)?(?:\\s+count)?[\\s:=]+\\s*(?P<value>\\d+\\.?\\d*)\\s*(?:K\\/uL|k\\/ul|x10[\u00b3\\^]3\\/uL|lakh\\/\\s*cumm|lac\\/cumm)?",
      "(?i)\\bPLT\\b[\\s:=]+\\s*(?P<value>\\d+\\.?\\d*)\\s*(?:K\\/uL|k\\/ul|lakh\\/\\s*cumm)?"],
    value_min := 0.5, value_max := 2000.0 },
  { name := "MPV",
    abbreviation := "MPV",
    unit := "fL",
    table_aliases := ["mpv", "mean platelet volume"],
    patterns := [
      "(?i)\\bMPV\\b[\\s:=]+\\s*(?P<value>\\d+\\.?\\d*)\\s*(?:fL|fl)?",
      "(?i)mean\\s+platelet\\s+volume[\\s:=]+\\s*(?P<value>\\d+\\.?\\d*)"],
    value_min := 3.0, value_max := 25.0 },
  { name := "Total Cholesterol",
    abbreviation := "CHOL",
    unit := "mg/dL",
    table_aliases := ["total cholesterol", "cholesterol, total", "cholesterol total", "cholesterol"],
    patterns := [
      "(?i)(?:total\\s+)?cholesterol[\\s:=]+\\s*(?P<value>\\d+\\.?\\d*)\\s*(?:mg\\/dL)?"],
    value_min := 50.0, value_max := 500.0 },
  { name := "HDL Cholesterol",
    abbreviation := "HDL",
    unit := "mg/dL",
    table_aliases := ["hdl", "hdl cholesterol", "hdl-c", "hdl chol"],
    patterns := [
      "(?i)HDL(?:\\s+cholesterol|\\s+chol\\.?|-C)?[\\s:=]+\\s*(?P<value>\\d+\\.?\\d*)\\s*(?:mg\\/dL)?"],
    value_min := 10.0, value_max := 150.0 },
  { name := "LDL Cholesterol",
    abbreviation := "LDL",
    unit := "mg/dL",
    table_aliases := ["ldl", "ldl cholesterol", "ldl-c", "ldl chol", "ldl calculated", "ldl calc", "ldl cholesterol calculated", "direct ldl", "ldl direct", "ldl cholesterol direct"],
    patterns := [
      "(?i)(?:direct\\s+)?LDL(?:\\s+cholesterol)?(?:\\s+(?:calc(?:ulated)?|direct))?(?:\\s+chol\\.?|-C)?[\\s:=]+\\s*(?P<value>\\d+\\.?\\d*)\\s*(?:mg\\/dL)?"],
    value_min := 10.0, value_max := 400.0 },
  { name := "Triglycerides",
    abbreviation := "TRIG",
    unit := "mg/dL",
    table_aliases := ["triglycerides", "trig", "triglyceride"],
    patterns := [
      "(?i)triglycerides?[\\s:=]+\\s*(?P<value>\\d+\\.?\\d*)\\s*(?:mg\\/dL)?",
      "(?i)\\bTRIG\\b[\\s:=]+\\s*(?P<value>\\d+\\.?\\d*)\\s*(?:mg\\/dL)?"],
    value_min := 10.0, value_max := 2000.0 },
  { name := "VLDL Cholesterol",
    abbreviation := "VLDL",
    unit := "mg/dL",
    table_aliases := ["vldl", "vldl cholesterol", "vldl-c", "vldl chol"],
    patterns := [
      "(?i)VLDL(?:\\s+cholesterol|\\s+chol\\.?|-C)?[\\s:=]+\\s*(?P<value>\\d+\\.?\\d*)\\s*(?:mg\\/dL)?"],
    value_min := 1.0, value_max := 200.0 },
  { name := "TSH",
    abbreviation := "TSH",
    unit := "uIU/mL",
    table_aliases := ["tsh", "thyroid stimulating hormone", "thyrotropin"],
    patterns := [
      "(?i)\\bTSH\\b[\\s:=]+\\s*(?P<value>\\d+\\.?\\d*)\\s*(?:uIU\\/mL|mIU\\/L|uU\\/mL)?",
      "(?i)thyroid\\s+stimulating\\s+hormone[\\s:=]+\\s*(?P<value>\\d+\\.?\\d*)"],
    value_min := 0.001, value_max := 100.0 },
  { name := "Free T4",
    abbreviation := "FT4",
    unit := "ng/dL",
    table_aliases := ["free t4", "ft4", "free thyroxine", "t4, free"],
    patterns := [
      "(?i)free\\s+T4[\\s:=]+\\s*(?P<value>\\d+\\.?\\d*)\\s*(?:ng\\/dL|ng\\/dl)?",
      "(?i)\\bFT4\\b[\\s:=]+\\s*(?P<value>\\d+\\.?\\d*)\\s*(?:ng\\/dL)?",
      "(?i)free\\s+thyroxine[\\s:=]+\\s*(?P<value>\\d+\\.?\\d*)"],
    value_min := 0.1, value_max := 10.0 },
  { name := "Free T3",
    abbreviation := "FT3",
    unit := "pg/mL",
    table_aliases := ["free t3", "ft3", "free triiodothyronine", "t3, free"],
    patterns := [
      "(?i)free\\s+T3[\\s:=]+\\s*(?P<value>\\d+\\.?\\d*)\\s*(?:pg\\/mL|pg\\/ml)?",
      "(?i)\\bFT3\\b[\\s:=]+\\s*(?P<value>\\d+\\.?\\d*)\\s*(?:pg\\/mL)?",
      "(?i)free\\s+triiodothyronine[\\s:=]+\\s*(?P<value>\\d+\\.?\\d*)"],
    value_min := 0.5, value_max := 20.0 },
  { name := "Total T4",
    abbreviation := "TT4",
    unit := "ug/dL",
    table_aliases := ["total t4", "t4, total", "t4 total", "thyroxine"],
    patterns := [
      "(?i)total\\s+T4[\\s:=]+\\s*(?P<value>\\d+\\.?\\d*)\\s*(?:ug\\/dL|mcg\\/dL)?",
      "(?i)\\bT4\\b(?:\\s*,?\\s*total)?[\\s:=]+\\s*(?P<value>\\d+\\.?\\d*)\\s*(?:ug\\/dL|mcg\\/dL)?",
      "(?i)thyroxine[\\s:=]+\\s*(?P<value>\\d+\\.?\\d*)\\s*(?:ug\\/dL|mcg\\/dL)?"],
    value_min := 0.5, value_max := 30.0 },
  { name := "Iron",
    abbreviation := "FE",
    unit := "ug/dL",
    table_aliases := ["iron", "serum iron", "fe", "iron, serum"],
    patterns := [
      "(?i)(?:serum\\s+)?iron[\\s:=]+\\s*(?P<value>\\d+\\.?\\d*)\\s*(?:ug\\/dL|mcg\\/dL)?",
      "(?i)\\bFe\\b[\\s:=]+\\s*(?P<value>\\d+\\.?\\d*)\\s*(?:ug\\/dL)?"],
    value_min := 5.0, value_max := 500.0 },
  { name := "TIBC",
    abbreviation := "TIBC",
    unit := "ug/dL",
    table_aliases := ["tibc", "total iron binding capacity", "iron binding capacity"],
    patterns := [
      "(?i)\\bTIBC\\b[\\s:=]+\\s*(?P<value>\\d+\\.?\\d*)\\s*(?:ug\\/dL|mcg\\/dL)?",
      "(?i)total\\s+iron[\\s-]+binding\\s+capacity[\\s:=]+\\s*(?P<value>\\d+\\.?\\d*)"],
    value_min := 50.0, value_max := 800.0 },
  { name := "Ferritin",
    abbreviation := "FERR",
    unit := "ng/mL",
    table_aliases := ["ferritin"],
    patterns := [
      "(?i)ferritin[\\s:=]+\\s*(?P<value>\\d+\\.?\\d*)\\s*(?:ng\\/mL|ng\\/ml)?"],
    value_min := 1.0, value_max := 5000.0 },
  { name := "Transferrin Saturation",
    abbreviation := "TSAT",
    unit := "%",
    table_aliases := ["transferrin saturation", "tsat", "iron saturation", "transferrin sat", "% saturation"],
    patterns := [
      "(?i)transferrin\\s+sat(?:uration)?[\\s:=]+\\s*(?P<value>\\d+\\.?\\d*)\\s*%?",
      "(?i)\\bTSAT\\b[\\s:=]+\\s*(?P<value>\\d+\\.?\\d*)\\s*%?",
      "(?i)iron\\s+saturation[\\s:=]+\\s*(?P<value>\\d+\\.?\\d*)\\s*%?"],
    value_min := 1.0, value_max := 100.0 },
  { name := "HbA1c",
    abbreviation := "A1C",
    unit := "%",
    table_aliases := ["hba1c", "hemoglobin a1c", "a1c", "hgb a1c", "glycated hemoglobin", "glycosylated hemoglobin"],
    patterns := [
      "(?i)(?:HbA1c|Hgb\\s+A1c|hemoglobin\\s+A1c|A1C)[\\s:=]+\\s*(?P<value>\\d+\\.?\\d*)\\s*%?",
      "(?i)glyc(?:ated|osylated)\\s+hemoglobin[\\s:=]+\\s*(?P<value>\\d+\\.?\\d*)\\s*%?"],
    value_min := 3.0, value_max := 20.0 },
  { name := "Urine pH",
    abbreviation := "UA_PH",
    unit := "",
    table_aliases := ["ph", "urine ph"],
    patterns := [
      "(?i)(?:urine\\s+)?pH[\\s:=]+\\s*(?P<value>\\d+\\.?\\d*)"],
    value_min := 2.0, value_max := 11.0 },
  { name := "Specific Gravity",
    abbreviation := "UA_SG",
    unit := "",
    table_aliases := ["specific gravity", "sp. gravity", "sp gravity", "spec gravity", "sg"],
    patterns := [
      "(?i)(?:urine\\s+)?(?:specific|sp\\.?)\\s+gravity[\\s:=]+\\s*(?P<value>\\d+\\.?\\d*)"],
    value_min := 0.999, value_max := 1.06 },
  { name := "Urine Protein",
    abbreviation := "UA_PROT",
    unit := "mg/dL",
    table_aliases := ["urine protein", "protein (urine)", "ua protein"],
    patterns := [
      "(?i)(?:urine|ua)\\s+protein[\\s:=]+\\s*(?P<value>\\d+\\.?\\d*)\\s*(?:mg\\/dL)?"],
    value_min := 0.0, value_max := 1000.0 },
  { name := "Urine Glucose",
    abbreviation := "UA_GLU",
    unit := "mg/dL",
    table_aliases := ["urine glucose", "glucose (urine)", "ua glucose"],
    patterns := [
      "(?i)(?:urine|ua)\\s+glucose[\\s:=]+\\s*(?P<value>\\d+\\.?\\d*)\\s*(?:mg\\/dL)?"],
    value_min := 0.0, value_max := 5000.0 },
  { name := "Urine WBC",
    abbreviation := "UA_WBC",
    unit := "/HPF",
    table_aliases := ["wbc (urine)", "urine wbc", "ua wbc"],
    patterns := [
      "(?i)(?:urine|ua)\\s+WBC[\\s:=]+\\s*(?P<value>\\d+\\.?\\d*)\\s*(?:\\/HPF|\\/hpf)?"],
    value_min := 0.0, value_max := 500.0 },
  { name := "Urine RBC",
    abbreviation := "UA_RBC",
    unit := "/HPF",
    table_aliases := ["rbc (urine)", "urine rbc", "ua rbc"],
    patterns := [
      "(?i)(?:urine|ua)\\s+RBC[\\s:=]+\\s*(?P<value>\\d+\\.?\\d*)\\s*(?:\\/HPF|\\/hpf)?"],
    value_min := 0.0, value_max := 500.0 } ]

/-- Ordered-dict insert/overwrite: a re-inserted key keeps its first
position but takes the new value (CPython dict semantics). -/
def upsertAssoc (l : List (String × MeasurementDef)) (k : String)
    (v : MeasurementDef) : List (String × MeasurementDef) :=
  match l with
  | [] => [(k, v)]
  | (k', v') :: rest =>
      if k' = k then (k', v) :: rest else (k', v') :: upsertAssoc rest k v

/-- `_ALIAS_LOOKUP`: lowercase alias → definition, built in source order
(later definitions overwrite shared aliases such as `"tlc"`). -/
def ALIAS_LOOKUP : List (String × MeasurementDef) :=
  MEASUREMENT_DEFS.foldl
    (fun acc mdef =>
      mdef.table_aliases.foldl (fun acc a => upsertAssoc acc (pyLower a) mdef) acc)
    []

/-- `_TABLE_HEADER_KEYWORDS`. -/
def TABLE_HEADER_KEYWORDS : List String :=
  ["test", "result", "value", "units", "unit", "reference", "range", "flag",
   "status", "analyte", "component", "name"]

/-- `_is_lab_table`: at least two headers contain a header keyword. -/
def isLabTable (headers : List String) : Bool :=
  let lower_headers := headers.map (fun h => pyStrip (pyLower h))
  2 ≤ (lower_headers.filter
        (fun h => TABLE_HEADER_KEYWORDS.any (fun kw => pyIn kw h))).length

/-- `_find_result_column`: index of the first header named
result/value/results/values. -/
def findResultColumn (headers : List String) : Option ℕ :=
  (headers.enum.findSome? (fun p =>
    let hl := pyStrip (pyLower p.2)
    if hl = "result" ∨ hl = "value" ∨ hl = "results" ∨ hl = "values" then
      some p.1
    else none))

/-- `_find_prior_columns`: columns whose stripped header matches one of the
`_TEMPORAL_HEADER_PATTERNS` date/relative-time regexes (abstracted as the
`isTemporal` oracle). -/
def findPriorColumns (isTemporal : String → Bool) (headers : List String) :
    List (ℕ × String) :=
  headers.enum.foldl
    (fun acc p =>
      let hl := pyStrip p.2
      if isTemporal hl then acc ++ [(p.1, hl)] else acc)
    []

/-- `str.rstrip(":")`. -/
def rstripColon (s : String) : String :=
  (s.data.reverse.dropWhile (fun c => c = ':')).reverse.asString

/-- `_match_row_to_analyte`: exact lowercase-alias lookup, then first alias
(in dict order) contained in the row name. -/
def matchRowToAnalyte (row_name : String) : Option MeasurementDef :=
  let normalized := rstripColon (pyStrip (pyLower row_name))
  match ALIAS_LOOKUP.lookup normalized with
  | some mdef => some mdef
  | none =>
      ALIAS_LOOKUP.findSome? (fun p =>
        if pyIn p.1 normalized then some p.2 else none)

/-- `int` value of a run of ASCII digits. -/
def digitsToNat (ds : List Char) : ℕ :=
  ds.foldl (fun n c => 10 * n + (c.toNat - 48)) 0

/-- `_extract_numeric`: first `\d+\.?\d*` match in the stripped text,
parsed exactly (the Python `float()` of such a match never fails). -/
def extractNumeric (text : String) : Option ℚ :=
  let cs := (pyStrip text).data
  match cs.dropWhile (fun c => !c.isDigit) with
  | [] => none
  | c :: rest =>
      let intPart := (c :: rest).takeWhile Char.isDigit
      let afterInt := (c :: rest).drop intPart.length
      let fracPart :=
        match afterInt with
        | '.' :: r2 => r2.takeWhile Char.isDigit
        | _ => []
      some ((digitsToNat intPart : ℚ) +
        (digitsToNat fracPart : ℚ) / (10 : ℚ) ^ fracPart.length)

/-- `_find_page` (same body as the echo module's). -/
def findPage (snippet : String) (pages : List PageExtractionResult) : Option ℕ :=
  let normalized := wsNormalize snippet
  pages.findSome? (fun page =>
    if pyIn normalized (wsNormalize page.text) then some page.page_number else none)

/-- The value scan of a table row: the result column first, then the first
non-prior column (from index 1) with a numeric value. -/
def rowValue (result_col : Option ℕ) (prior_col_indices : List ℕ)
    (row : List String) : Option ℚ :=
  let fromResult :=
    match result_col with
    | some rc => if rc < row.length then extractNumeric (row.getD rc "") else none
    | none => none
  match fromResult with
  | some v => some v
  | none =>
      (row.enum.drop 1).findSome? (fun p =>
        if prior_col_indices.contains p.1 then none else extractNumeric p.2)

/-- Prior values harvested from the temporal columns of a row, each
bounds-checked against the analyte's sanity range. -/
def rowPriors (mdef : MeasurementDef) (prior_cols : List (ℕ × String))
    (row : List String) : List PriorValueRaw :=
  prior_cols.foldl
    (fun acc p =>
      if p.1 < row.length then
        match extractNumeric (row.getD p.1 "") with
        | some pv =>
            if mdef.value_min ≤ pv ∧ pv ≤ mdef.value_max then
              acc ++ [{ value := pv, time_label := p.2 }]
            else acc
        | none => acc
      else acc)
    []

/-- One row of the `for row in table.rows` loop of `_extract_from_tables`. -/
def tableRowStep (table : ExtractedTable)
    (result_col : Option ℕ) (prior_cols : List (ℕ × String))
    (st : List RawMeasurement × List String) (row : List String) :
    List RawMeasurement × List String :=
  if row.isEmpty then st
  else
    let row_name := row.headD ""
    match matchRowToAnalyte row_name with
    | none => st
    | some mdef =>
        if st.2.contains mdef.abbreviation then st
        else
          let raw_text := String.intercalate " | " row
          match rowValue result_col (prior_cols.map Prod.fst) row with
          | some value =>
              if mdef.value_min ≤ value ∧ value ≤ mdef.value_max then
                (st.1 ++
                  [{ name := mdef.name
                     abbreviation := mdef.abbreviation
                     value := value
                     unit := mdef.unit
                     raw_text := pyStrip raw_text
                     page_number := some table.page_number
                     prior_values := rowPriors mdef prior_cols row }],
                 st.2 ++ [mdef.abbreviation])
              else st
          | none => st

/-- One table of the `for table in tables` loop of `_extract_from_tables`. -/
def tableStep (isTemporal : String → Bool)
    (st : List RawMeasurement × List String) (table : ExtractedTable) :
    List RawMeasurement × List String :=
  if table.headers.isEmpty ∨ ¬ isLabTable table.headers then st
  else
    let result_col := findResultColumn table.headers
    let prior_cols := findPriorColumns isTemporal table.headers
    table.rows.foldl (tableRowStep table result_col prior_cols) st

/-- `_extract_from_tables`. -/
def extractFromTables (isTemporal : String → Bool)
    (tables : List ExtractedTable) : List RawMeasurement :=
  (tables.foldl (tableStep isTemporal) ([], [])).1

/-- The inner pattern loop of `_extract_from_text` (same control flow as
the echo module: out-of-bounds matches are skipped pattern by pattern). -/
def firstPatternHit (search : SearchOracle) (full_text : String)
    (mdef : MeasurementDef) : List String → Option (ℚ × String)
  | [] => none
  | p :: rest =>
    match search p full_text with
    | none => firstPatternHit search full_text mdef rest
    | some (value, g) =>
        if mdef.value_min ≤ value ∧ value ≤ mdef.value_max then some (value, g)
        else firstPatternHit search full_text mdef rest

/-- One iteration of the `for mdef in MEASUREMENT_DEFS` loop of
`_extract_from_text`. -/
def textStep (search : SearchOracle) (full_text : String)
    (pages : List PageExtractionResult)
    (st : List RawMeasurement × List String) (mdef : MeasurementDef) :
    List RawMeasurement × List String :=
  if st.2.contains mdef.abbreviation then st
  else
    match firstPatternHit search full_text mdef mdef.patterns with
    | none => st
    | some (value, g) =>
        (st.1 ++
          [{ name := mdef.name
             abbreviation := mdef.abbreviation
             value := value
             unit := mdef.unit
             raw_text := pyStrip g
             page_number := findPage g pages }],
         st.2 ++ [mdef.abbreviation])

/-- `_extract_from_text(full_text, pages, seen)`. -/
def extractFromText (search : SearchOracle) (full_text : String)
    (pages : List PageExtractionResult) (seen : List String) :
    List RawMeasurement :=
  (MEASUREMENT_DEFS.foldl (textStep search full_text pages) ([], seen)).1

/-- One element of the `_normalize_units` loop: WBC_CUMM is divided by
1000 and renamed WBC (first WBC wins), a PLT whose raw text mentions
"lakh" is multiplied by 100; everything else passes through.  The rebuilt
WBC/PLT records drop prior values (the source constructs fresh
`RawMeasurement`s without the `prior_values` field). -/
def normalizeStep (st : List RawMeasurement × List String)
    (m : RawMeasurement) : List RawMeasurement × List String :=
  if m.abbreviation = "WBC_CUMM" then
    if st.2.contains "WBC" then st
    else
      (st.1 ++
        [{ name := m.name
           abbreviation := "WBC"
           value := pyRound (m.value / 1000) 1
           unit := "K/uL"
           raw_text := m.raw_text
           page_number := m.page_number }],
       st.2 ++ ["WBC"])
  else if m.abbreviation = "WBC" then
    if st.2.contains "WBC" then st
    else (st.1 ++ [m], st.2 ++ ["WBC"])
  else if m.abbreviation = "PLT" ∧ pyIn "lakh" (pyLower m.raw_text) then
    (st.1 ++
      [{ name := m.name
         abbreviation := m.abbreviation
         value := pyRound (m.value * 100) 0
         unit := "K/uL"
         raw_text := m.raw_text
         page_number := m.page_number }],
     st.2)
  else (st.1 ++ [m], st.2)

/-- `_normalize_units`. -/
def normalizeUnits (results : List RawMeasurement) : List RawMeasurement :=
  (results.foldl normalizeStep ([], [])).1

/-- The table-first + regex-fallback combination of `extract_measurements`
before unit normalization. -/
def combinedResults (search : SearchOracle) (isTemporal : String → Bool)
    (full_text : String) (pages : List PageExtractionResult)
    (tables : List ExtractedTable) : List RawMeasurement :=
  let table_results := extractFromTables isTemporal tables
  let seen := table_results.map (fun m => m.abbreviation)
  let text_results := extractFromText search full_text pages seen
  table_results ++ text_results

/-- `extract_measurements(full_text, pages, tables)`. -/
def extract_measurements (search : SearchOracle) (isTemporal : String → Bool)
    (full_text : String) (pages : List PageExtractionResult)
    (tables : List ExtractedTable) : List RawMeasurement :=
  normalizeUnits (combinedResults search isTemporal full_text pages tables)

end Sidecar.Labs

namespace Sidecar.TextTables

/-! ## Free-text table detection (extraction/text_table_parser.py)

Pipe-delimited, tab-delimited and fixed-width table recovery from pasted
EMR text.  Every regex this module uses is a small anchored character-class
pattern, so all of them are embedded concretely (no oracle needed):
`_SEPARATOR_LINE`, `_BLANK_LINE`, `\S\s{2,}\S`, `re.split(r"\s{2,}", ...)`,
and the unit/range/flag/numeric column classifiers of
`_synthesize_headers`. -/

open Sidecar

/-- `_MIN_COLS = 2`. -/
def MIN_COLS : ℕ := 2

/-- Character class of `_SEPARATOR_LINE` (`[\s\-=_|+]`). -/
def isSeparatorChar (c : Char) : Bool :=
  isPyWs c || c = '-' || c = '=' || c = '_' || c = '|' || c = '+'

/-- `_BLANK_LINE.match(line)` (`^\s*$`): empty or all whitespace. -/
def isBlankLine (line : String) : Bool :=
  line.data.all isPyWs

/-- `_SEPARATOR_LINE.match(line)` (`^[\s\-=_|+]+$`): nonempty and built
only from separator characters. -/
def isSeparatorLine (line : String) : Bool :=
  !line.data.isEmpty && line.data.all isSeparatorChar

/-- `_is_data_line`. -/
def isDataLine (line : String) : Bool :=
  !isBlankLine line && !isSeparatorLine line

/-- Lower-case expansions of the `_UNIT_PATTERNS` alternation (the regex is
a full-string, case-insensitive match over this finite list; the
`[Ee]?[369]` and optional-suffix subpatterns are expanded). -/
def UNIT_ALTS : List String :=
  ["mg/dl", "g/dl", "ng/dl", "ug/dl", "pg/ml", "ng/ml", "iu/ml",
   "mmol/l", "umol/l", "meq/l",
   "u/l", "mu/l", "iu/l",
   "cells/ul", "cells/mcl",
   "x103/ul", "x106/ul", "x109/ul",
   "x10e3/ul", "x10e6/ul", "x10e9/ul",
   "10^3/ul", "10^6/ul", "10^9/ul",
   "k/ul", "m/ul",
   "ml/min", "ml/min/1.73m2",
   "mm/hr", "sec", "seconds", "%", "fl", "pg", "g/l", "ratio", "index",
   "miu/l", "miu/ml", "uiu/ml",
   "mg/l", "ug/l", "ng/l",
   "mmhg", "bpm", "cm", "mm", "ml", "l"]

/-- `_UNIT_PATTERNS.match(v)` (with its `$` anchor: a full-string match). -/
def matchesUnit (v : String) : Bool :=
  UNIT_ALTS.contains (pyLower v)

/-- Consume a `\d+\.?\d*` number at the head of the character list;
`none` when no leading digit. -/
def munchNum (cs : List Char) : Option (List Char) :=
  let ds := cs.takeWhile Char.isDigit
  if ds.isEmpty then none
  else
    let rest := cs.drop ds.length
    match rest with
    | '.' :: r2 => some (r2.drop (r2.takeWhile Char.isDigit).length)
    | _ => some rest

/-- `^[<>]?\s*\d+\.?\d*\s*[-–]\s*\d+\.?\d*$`: a low-high reference range. -/
def matchesRangePair (v : String) : Bool :=
  let cs := v.data
  let cs := match cs with
    | '<' :: r => r
    | '>' :: r => r
    | _ => cs
  let cs := cs.dropWhile isPyWs
  match munchNum cs with
  | none => false
  | some cs =>
    let cs := cs.dropWhile isPyWs
    match cs with
    | c :: r =>
        if c = '-' ∨ c = '–' then
          let r := r.dropWhile isPyWs
          match munchNum r with
          | some [] => true
          | _ => false
        else false
    | [] => false

/-- `^[<>]\s*\d+\.?\d*$`: a one-sided reference bound. -/
def matchesRangeBound (v : String) : Bool :=
  let cs := v.data
  match cs with
  | c :: r =>
      if c = '<' ∨ c = '>' then
        match munchNum (r.dropWhile isPyWs) with
        | some [] => true
        | _ => false
      else false
  | [] => false

/-- The reference-range column test of `_synthesize_headers`. -/
def matchesRange (v : String) : Bool :=
  matchesRangePair v || matchesRangeBound v

/-- `^[HLA\*]{1,2}$` with IGNORECASE: one or two flag characters. -/
def matchesFlag (v : String) : Bool :=
  (v.data.length = 1 ∨ v.data.length = 2) &&
  v.data.all (fun c => c = 'H' ∨ c = 'L' ∨ c = 'A' ∨ c = '*' ∨
    c = 'h' ∨ c = 'l' ∨ c = 'a')

/-- `^[<>]?\s*\d+\.?\d*$`: a bare numeric value. -/
def matchesNumeric (v : String) : Bool :=
  let cs := v.data
  let cs := match cs with
    | '<' :: r => r
    | '>' :: r => r
    | _ => cs
  match munchNum (cs.dropWhile isPyWs) with
  | some [] => true
  | _ => false

/-- `default_names` of `_synthesize_headers`. -/
def DEFAULT_NAMES : List String :=
  ["Name", "Value", "Units", "Range", "Flag"]

/-- The per-column content analysis of `_synthesize_headers` (columns 1
and up), run left to right because the `"Value" not in headers` test reads
the headers assigned so far. -/
def synthColumn (sample_rows : List (List String)) (headers : List String)
    (col : ℕ) : List String :=
  let col_vals := sample_rows.filterMap (fun row =>
    if col < row.length then
      let v := pyStrip (row.getD col "")
      if v ≠ "" then some v else none
    else none)
  if col_vals.isEmpty then headers
  else
    let n : ℚ := col_vals.length
    let unit_matches : ℚ := (col_vals.filter matchesUnit).length
    if 0.4 * n ≤ unit_matches ∧ 2 ≤ unit_matches then headers.set col "Units"
    else
      let range_matches : ℚ := (col_vals.filter matchesRange).length
      if 0.3 * n ≤ range_matches ∧ 2 ≤ range_matches then headers.set col "Range"
      else
        let flag_matches : ℚ := (col_vals.filter matchesFlag).length
        if 0.2 * n ≤ flag_matches ∧ 1 ≤ flag_matches then headers.set col "Flag"
        else
          let num_matches : ℚ := (col_vals.filter matchesNumeric).length
          if 0.5 * n ≤ num_matches then
            headers.set col
              (if headers.contains "Value" then "Value" ++ toString col else "Value")
          else headers

/-- The fill loop of `_synthesize_headers`: empty slots take the first
unused default name, else `Col{i}`. -/
def fillDefaults (num_cols : ℕ) (headers : List String) : List String :=
  ((List.range num_cols).foldl
    (fun (st : List String × List String) i =>
      if st.1.getD i "" = "" then
        match (DEFAULT_NAMES.filter (fun d => !st.2.contains d)).head? with
        | some d => (st.1.set i d, st.2 ++ [d])
        | none => (st.1.set i ("Col" ++ toString i), st.2)
      else st)
    (headers, headers.filter (fun h => h ≠ ""))).1

/-- `_synthesize_headers(num_cols, sample_rows)`. -/
def synthesizeHeaders (num_cols : ℕ)
    (sample_rows : Option (List (List String))) : List String :=
  let falsy := match sample_rows with
    | none => true
    | some l => l.isEmpty
  if falsy then
    if num_cols ≤ DEFAULT_NAMES.length then DEFAULT_NAMES.take num_cols
    else
      DEFAULT_NAMES ++
        ((List.range num_cols).drop DEFAULT_NAMES.length).map
          (fun i => "Col" ++ toString i)
  else
    let rows := sample_rows.getD []
    let headers := (List.replicate num_cols "").set 0 "Name"
    let headers :=
      ((List.range num_cols).drop 1).foldl (synthColumn rows) headers
    fillDefaults num_cols headers

/-- `_split_pipe`: split on `|`, strip cells, drop empty leading/trailing
cells produced by outer pipes. -/
def splitPipe (line : String) : List String :=
  let cells := (line.splitOn "|").map pyStrip
  ((cells.dropWhile (fun c => c = "")).reverse.dropWhile (fun c => c = "")).reverse

/-- Pad with empty cells, then trim, to exactly `expected` columns. -/
def padTrim (expected : ℕ) (cells : List String) : List String :=
  (cells ++ List.replicate (expected - cells.length) "").take expected

/-- `abs(len(cells) - expected_cols) <= 1`. -/
def withinOne (a b : ℕ) : Bool :=
  decide (|(a : ℤ) - (b : ℤ)| ≤ 1)

/-- The row loop of `_try_pipe_delimited`: keep data lines containing a
pipe whose cell count is within ±1 of the header's, padded/trimmed. -/
def collectPipeRows (expected : ℕ) : List String → List (List String)
  | [] => []
  | l :: ls =>
    if !isDataLine l then collectPipeRows expected ls
    else if !l.contains '|' then collectPipeRows expected ls
    else
      let cells := splitPipe l
      if withinOne cells.length expected then
        padTrim expected cells :: collectPipeRows expected ls
      else collectPipeRows expected ls

/-- First element satisfying `p` together with the lines after it
(the `enumerate`-and-break search for the header row). -/
def findFirstSplit (p : String → Bool) : List String → Option (String × List String)
  | [] => none
  | l :: ls => if p l then some (l, ls) else findFirstSplit p ls

/-- `_try_pipe_delimited`. -/
def tryPipeDelimited (lines : List String) : List ExtractedTable :=
  let scan_lines := lines.take 30
  let pipe_lines := scan_lines.filter (fun l => l.contains '|' && isDataLine l)
  if pipe_lines.length < 2 then []
  else
    match findFirstSplit (fun l => l.contains '|' && isDataLine l) lines with
    | none => []
    | some (header_line, after) =>
      let headers := splitPipe header_line
      if headers.length < MIN_COLS then []
      else
        let rows := collectPipeRows headers.length after
        if rows.isEmpty then []
        else
          [{ page_number := 1, table_index := 0, headers := headers, rows := rows }]

/-- Header keywords of `_try_tab_delimited`. -/
def TAB_HEADER_KEYWORDS : List String :=
  ["test", "result", "value", "units", "unit", "reference", "range", "flag",
   "status", "analyte", "component", "name", "investigation", "parameter",
   "observed", "normal"]

/-- The row loop of `_try_tab_delimited`. -/
def collectTabRows (expected : ℕ) : List String → List (List String)
  | [] => []
  | l :: ls =>
    if !isDataLine l then collectTabRows expected ls
    else if !l.contains '\t' then collectTabRows expected ls
    else
      let cells := (l.splitOn "\t").map pyStrip
      if withinOne cells.length expected then
        padTrim expected cells :: collectTabRows expected ls
      else collectTabRows expected ls

/-- `_try_tab_delimited`. -/
def tryTabDelimited (lines : List String) : List ExtractedTable :=
  let scan_lines := lines.take 30
  let tab_lines := scan_lines.filter (fun l => l.contains '\t' && isDataLine l)
  if tab_lines.length < 2 then []
  else
    match findFirstSplit (fun l => l.contains '\t' && isDataLine l) lines with
    | none => []
    | some (first_line, after) =>
      let first_cells := (first_line.splitOn "\t").map pyStrip
      let has_header := first_cells.any
        (fun c => TAB_HEADER_KEYWORDS.contains (pyStrip (pyLower c)))
      let expected_cols := first_cells.length
      if expected_cols < MIN_COLS then []
      else
        let rows := collectTabRows expected_cols
          (if has_header then after else first_line :: after)
        if rows.isEmpty then []
        else
          let headers :=
            if has_header then first_cells
            else synthesizeHeaders expected_cols (some (rows.take 10))
          [{ page_number := 1, table_index := 0, headers := headers, rows := rows }]

/-- `re.search(r"\S\s{2,}\S", l)`: some non-space is followed by two or
more whitespace characters and then a non-space. -/
def hasMultiSpaceGap : List Char → Bool
  | [] => false
  | c :: rest =>
      (!isPyWs c &&
        (let run := rest.takeWhile isPyWs
         2 ≤ run.length && !(rest.drop run.length).isEmpty)) ||
      hasMultiSpaceGap rest

/-- `re.split(r"\s{2,}", s)`: split on maximal whitespace runs of length
at least 2 (single whitespace characters stay inside a token). -/
def splitMultiSpace (s : String) : List String :=
  go s.data []
where
  go : List Char → List Char → List String
    | [], cur => [cur.reverse.asString]
    | c :: rest, cur =>
      if isPyWs c then
        let run := rest.takeWhile isPyWs
        if 1 ≤ run.length then
          cur.reverse.asString :: go (rest.drop run.length) []
        else go rest (c :: cur)
      else go rest (c :: cur)
  termination_by cs _ => cs.length
  decreasing_by all_goals simp [List.length_drop] <;> omega

/-- The per-line cell split of `_try_fixed_width`: split the stripped line
on 2+ space runs, strip cells, drop empties. -/
def splitFixed (line : String) : List String :=
  ((splitMultiSpace (pyStrip line)).map pyStrip).filter (fun c => c ≠ "")

/-- First-occurrence deduplication (used to model iteration over
`set(col_counts)`). -/
def firstOccurDedup (l : List ℕ) : List ℕ :=
  l.foldl (fun acc x => if acc.contains x then acc else acc ++ [x]) []

/-- `max(set(col_counts), key=col_counts.count)`: a column count of
maximal multiplicity.  CPython's `set` iteration order is unspecified, so
ties between distinct counts of equal multiplicity are resolved here by
first occurrence; the theorems below only depend on inputs where the
maximal multiplicity is unique, where every iteration order agrees. -/
def modalCount (counts : List ℕ) : ℕ :=
  ((firstOccurDedup counts).foldl
    (fun (best : Option (ℕ × ℕ)) x =>
      let cx := counts.count x
      match best with
      | none => some (x, cx)
      | some b => if b.2 < cx then some (x, cx) else some b)
    none).elim 0 Prod.fst

/-- Header keywords of `_try_fixed_width` (a shorter set than the
tab-delimited one). -/
def FW_HEADER_KEYWORDS : List String :=
  ["test", "result", "value", "units", "unit", "reference", "range", "flag",
   "status", "analyte", "component", "name", "investigation", "parameter"]

/-- The per-line parse of `_try_fixed_width`'s `parsed_lines` loop: a
line splits into its fixed-width cells, kept only with at least
`_MIN_COLS` cells. -/
def fwParse (l : String) : Option (List String) :=
  let cells := splitFixed l
  if MIN_COLS ≤ cells.length then some cells else none

/-- `_try_fixed_width`. -/
def tryFixedWidth (lines : List String) : List ExtractedTable :=
  let data_lines := lines.filter isDataLine
  if data_lines.length < 2 then []
  else
    let multi_space_lines :=
      (data_lines.take 30).filter (fun l => hasMultiSpaceGap l.data)
    if multi_space_lines.length < 2 then []
    else
      let parsed_lines := data_lines.filterMap fwParse
      if parsed_lines.length < 2 then []
      else
        let modal_cols := modalCount (parsed_lines.map List.length)
        let filtered := parsed_lines.filter
          (fun row => withinOne row.length modal_cols)
        if filtered.length < 2 then []
        else
          match filtered with
          | [] => []
          | first_row :: later_rows =>
            let has_header := first_row.any
              (fun c => FW_HEADER_KEYWORDS.contains (pyStrip (pyLower c)))
            let data_rows := if has_header then later_rows else filtered
            let target_cols := if has_header then first_row.length else modal_cols
            let rows := data_rows.map (padTrim target_cols)
            if rows.isEmpty then []
            else
              let headers :=
                if has_header then first_row
                else synthesizeHeaders modal_cols (some (rows.take 10))
              [{ page_number := 1, table_index := 0, headers := headers, rows := rows }]

/-- `parse_text_tables(text, emr_source)`: strategy order is pipe > tab >
fixed-width by default; an `epic` hint keeps that order, a `meditech`
hint tries fixed-width first. -/
def parse_text_tables (text : String) (emr_source : Option String) :
    List ExtractedTable :=
  if text = "" ∨ pyStrip text = "" then []
  else
    let lines := pySplitlines text
    if emr_source = some "epic" then
      match tryPipeDelimited lines with
      | r :: rs => r :: rs
      | [] =>
        match tryTabDelimited lines with
        | r :: rs => r :: rs
        | [] => tryFixedWidth lines
    else if emr_source = some "meditech" then
      match tryFixedWidth lines with
      | r :: rs => r :: rs
      | [] =>
        match tryPipeDelimited lines with
        | r :: rs => r :: rs
        | [] => tryTabDelimited lines
    else
      match tryPipeDelimited lines with
      | r :: rs => r :: rs
      | [] =>
        match tryTabDelimited lines with
        | r :: rs => r :: rs
        | [] => tryFixedWidth lines

end Sidecar.TextTables

namespace Sidecar

/-! ## Theorems -/

open Detector Stress Reg Echo Labs TextTables OCR

/-- C10: for a PDF with zero pages, the document-level classification of
the Page-Type Detector is SCANNED (both through `_classify_overall` on an
empty page list and through `detect` on an empty document). -/
theorem C10_empty_document_is_scanned :
    Detector.classifyOverall [] = PageType.SCANNED ∧
    (Detector.detect []).overall_type = PageType.SCANNED := by
  constructor <;> rfl

/-- C2: `classify_measurement` is total, deterministic and
side-effect-free: two calls with identical inputs return the same
`ClassificationResult`, and every `(code, value)` pair yields exactly one
result and exactly one severity tier — never none, never two. -/
theorem C2_classify_total_deterministic (abbreviation : String) (value : ℚ) :
    Stress.classify_measurement abbreviation value =
      Stress.classify_measurement abbreviation value ∧
    (∃! r : Stress.ClassificationResult,
      Stress.classify_measurement abbreviation value = r) ∧
    (∃! s : SeverityStatus,
      (Stress.classify_measurement abbreviation value).status = s) := by
  refine ⟨rfl, ⟨_, rfl, ?_⟩, ⟨_, rfl, ?_⟩⟩ <;> exact fun y h => h.symm

/-- C4: a code absent from the stress reference-range table classifies to
UNDETERMINED with direction NORMAL and the fixed placeholder text (no
formatted reference range), for every value — and, the embedding being a
total function, never an error. -/
theorem C4_unknown_code_undetermined (abbreviation : String) (value : ℚ)
    (h : Stress.lookupRange abbreviation = none) :
    Stress.classify_measurement abbreviation value =
      { status := SeverityStatus.UNDETERMINED
        direction := AbnormalityDirection.NORMAL
        reference_range_str := "No reference range available" } := by
  unfold Stress.classify_measurement
  rw [h]

/-- C4 witness: the concrete unknown code `"LVEF"` (an echo code, absent
from the stress table). -/
theorem C4_unknown_code_undetermined_witness :
    Stress.classify_measurement "LVEF" 57.5 =
      { status := SeverityStatus.UNDETERMINED
        direction := AbnormalityDirection.NORMAL
        reference_range_str := "No reference range available" } :=
  C4_unknown_code_undetermined "LVEF" 57.5 (by decide)

/-- C3: a page is classified TEXT iff its post-trim character count is at
least 50 and its printable-character fraction is at least 0.70; in every
other case it is classified SCANNED, never TEXT. -/
theorem C3_page_text_iff_thresholds (n : ℕ) (text : String) :
    ((Detector.detectPage n text).page_type = PageType.TEXT ↔
      (Detector.TEXT_CHAR_THRESHOLD ≤ (pyStrip text).length ∧
       Detector.MIN_PRINTABLE_FRAC ≤ Detector.printableFrac (pyStrip text))) ∧
    ((Detector.detectPage n text).page_type ≠ PageType.TEXT →
      (Detector.detectPage n text).page_type = PageType.SCANNED) := by
  by_cases h : Detector.TEXT_CHAR_THRESHOLD ≤ (pyStrip text).length ∧
      Detector.MIN_PRINTABLE_FRAC ≤ Detector.printableFrac (pyStrip text) <;>
    simp [Detector.detectPage, h]

/-- C3 witness: the empty page (0 characters) is SCANNED. -/
theorem C3_page_text_iff_thresholds_witness :
    (Detector.detectPage 1 "").page_type = PageType.SCANNED :=
  (C3_page_text_iff_thresholds 1 "").2 (by decide)

/-- Oracle for C8: on the text `"LVEF: 55-60%"`, `_EF_RANGE_RE` matches
the whole string with numeric groups `55` and `60` (hand-checked against
the regex), and none of the `MEASUREMENT_DEFS` patterns match (no other
measurement keyword occurs in the text), so the per-definition search
oracle is constantly `none`. -/
def c8EfOracle : Echo.EFOracle := fun t =>
  if t = "LVEF: 55-60%" then some (55, 60, "LVEF: 55-60%") else none

/-- C8: the text `"LVEF: 55-60%"` yields exactly one raw measurement:
code LVEF, value 57.5 (the midpoint of the range), unit `%`. -/
theorem C8_lvef_range_midpoint :
    Echo.extract_measurements (fun _ _ => none) c8EfOracle "LVEF: 55-60%" [] =
      [{ name := "Left Ventricular Ejection Fraction"
         abbreviation := "LVEF"
         value := 57.5
         unit := "%"
         raw_text := "LVEF: 55-60%"
         page_number := none }] := by
  with_unfolding_all decide

/-- `extract_pages` distributes over list append (helper for C9). -/
theorem OCR.extract_pages_append (pipeline : ℕ → OCR.PageOutcome)
    (a b : List ℕ) :
    OCR.extract_pages pipeline (a ++ b) =
      OCR.extract_pages pipeline a ++ OCR.extract_pages pipeline b := by
  induction a with
  | nil => rfl
  | cons x xs ih => simp [OCR.extract_pages, ih]

/-- C9: a page whose raster/recognition pipeline raises degrades to the
empty result (empty text, zero confidence, zero char count) while every
other requested page is still processed: extraction of the surrounding
pages is exactly the extraction of the lists before and after, and in
general the extractor returns one result per requested page, in order. -/
theorem C9_ocr_failure_is_page_local (pipeline : ℕ → OCR.PageOutcome)
    (pre post : List ℕ) (n : ℕ) (h : pipeline n = OCR.PageOutcome.failure) :
    OCR.extract_pages pipeline (pre ++ n :: post) =
      OCR.extract_pages pipeline pre ++
        { page_number := n, text := "", extraction_method := "ocr"
          confidence := 0, char_count := 0 } ::
        OCR.extract_pages pipeline post ∧
    ∀ pages : List ℕ,
      (OCR.extract_pages pipeline pages).map (fun r => r.page_number) = pages := by
  constructor
  · rw [OCR.extract_pages_append]
    simp [OCR.extract_pages, h, OCR.emptyResult]
  · intro pages
    induction pages with
    | nil => rfl
    | cons x xs ih =>
        cases hx : pipeline x <;> simp [OCR.extract_pages, hx, ih, OCR.emptyResult]

/-- C9 witness: a three-page document whose middle page fails. -/
theorem C9_ocr_failure_is_page_local_witness :
    OCR.extract_pages
        (fun k => if k = 2 then OCR.PageOutcome.failure
                  else OCR.PageOutcome.ok "ok" 0.5) ([1] ++ 2 :: [3]) =
      OCR.extract_pages
        (fun k => if k = 2 then OCR.PageOutcome.failure
                  else OCR.PageOutcome.ok "ok" 0.5) [1] ++
        { page_number := 2, text := "", extraction_method := "ocr"
          confidence := 0, char_count := 0 } ::
        OCR.extract_pages
          (fun k => if k = 2 then OCR.PageOutcome.failure
                    else OCR.PageOutcome.ok "ok" 0.5) [3] :=
  (C9_ocr_failure_is_page_local _ [1] [3] 2 (by rfl)).1

/-- A successful header scan always carries the fixed confidence 0.85
(helper for C5). -/
theorem Reg.headerScan_eq_of_fst_some (reg : Reg.Registry) (t : String) :
    ∀ (pats : List (String → Option String)) (header_text : String),
      (Reg.headerScan reg pats header_text).1 = some t →
      Reg.headerScan reg pats header_text = (some t, 0.85) := by
  intro pats
  induction pats with
  | nil => intro ht h; simp [Reg.headerScan] at h
  | cons p rest ih =>
      intro ht h
      unfold Reg.headerScan at h ⊢
      cases hp : p ht with
      | none => simp only [hp] at h ⊢; exact ih ht h
      | some g =>
          simp only [hp] at h ⊢
          cases hr : Reg.resolve reg (Reg.rstripDot (pyStrip g)) with
          | none => simp only [hr] at h ⊢; exact ih ht h
          | some q =>
              simp only [hr] at h ⊢
              obtain ⟨rid, hh⟩ := q
              simp_all

/-- C5: whenever the header pre-pass resolves an explicit report-type
label from the first 500 characters, `detect` returns exactly that type
with fixed confidence 0.85, for every correction-cache state and every
registry — the per-handler scoring, correction adjustment, disambiguation
and subtype-resolution stages are never consulted. -/
theorem C5_header_prepass_short_circuits (pats : List (String → Option String))
    (cache : Reg.CorrectionCache) (reg : Reg.Registry)
    (er : Reg.ExtractionResult) (t : String)
    (h : (Reg.detect_from_header pats reg er).1 = some t) :
    Reg.detect_from_header pats reg er = (some t, 0.85) ∧
    Reg.detect pats cache reg er = (some t, 0.85) := by
  have h85 : Reg.detect_from_header pats reg er = (some t, 0.85) :=
    Reg.headerScan_eq_of_fst_some reg t pats (pyTake er.full_text 500) h
  refine ⟨h85, ?_⟩
  unfold Reg.detect
  rw [h85]

/-- Concrete registry for the C5 witness: one handler whose own detection
score (0.99) and subtype resolution would differ from the header result if
they were consulted. -/
def c5Handler : Reg.Handler :=
  { test_type_id := "echocardiogram"
    keywords := ["echo"]
    detectScore := fun _ => some 0.99
    isGeneric := false
    resolveSubtype := fun _ => some ("stress_echo", "Stress Echocardiogram") }

/-- Registry holding only `c5Handler`. -/
def c5Registry : Reg.Registry :=
  { handlers := [("echocardiogram", c5Handler)], subtypeParents := [] }

/-- Header-pattern oracle for the C5 witness: the labelled-format pattern
matches `"Report: Echo"` with group 1 `"Echo"` (hand-checked against
`_HEADER_PATTERNS[0]`); the other two patterns do not match. -/
def c5Pats : List (String → Option String) :=
  [fun s => if s = "Report: Echo" then some "Echo" else none,
   fun _ => none,
   fun _ => none]

/-- C5 witness: on the document `"Report: Echo"` the registry returns the
keyword-resolved type with confidence 0.85, ignoring the handler's own
score and subtype. -/
theorem C5_header_prepass_short_circuits_witness :
    Reg.detect c5Pats [] c5Registry { full_text := "Report: Echo" } =
      (some "echocardiogram", 0.85) :=
  (C5_header_prepass_short_circuits c5Pats [] c5Registry
    { full_text := "Report: Echo" } "echocardiogram" (by decide)).2

/-- C6: for every scored type and every correction-cache state, the
adjusted confidence equals the raw confidence plus 0.03 per corrected-TO
instance (capped at +0.10) minus 0.03 per corrected-FROM instance (capped
at −0.10), clamped into `[0, 1]`; when the input confidences lie in
`[0, 1]` (handler scores always do) every adjusted confidence stays in
`[0, 1]`. -/
theorem C6_correction_adjustment (cache : Reg.CorrectionCache)
    (scores : List (String × ℚ × Reg.Handler))
    (h : ∀ s ∈ scores, 0 ≤ s.2.1 ∧ s.2.1 ≤ 1) :
    Reg.applyCorrectionAdjustments cache scores =
      scores.map (fun s =>
        (s.1,
         max 0 (min 1 (s.2.1
           + min ((((Reg.boostFor cache).lookup s.1).getD 0 : ℚ) * 0.03) 0.10
           - min ((Reg.sumCounts ((cache.lookup s.1).getD []) : ℚ) * 0.03) 0.10)),
         s.2.2)) ∧
    ∀ s ∈ Reg.applyCorrectionAdjustments cache scores,
      0 ≤ s.2.1 ∧ s.2.1 ≤ 1 := by
  have hmin0 : ((0 : ℚ) ⊓ (0.10 : ℚ)) = 0 := min_eq_left (by norm_num)
  have hmap : Reg.applyCorrectionAdjustments cache scores =
      scores.map (fun s =>
        (s.1,
         max 0 (min 1 (s.2.1
           + min ((((Reg.boostFor cache).lookup s.1).getD 0 : ℚ) * 0.03) 0.10
           - min ((Reg.sumCounts ((cache.lookup s.1).getD []) : ℚ) * 0.03) 0.10)),
         s.2.2)) := by
    unfold Reg.applyCorrectionAdjustments
    cases cache with
    | nil =>
        simp only [List.isEmpty_nil, if_true]
        induction scores with
        | nil => rfl
        | cons a as ih =>
            have ha := h a (by simp)
            have has : ∀ s ∈ as, 0 ≤ s.2.1 ∧ s.2.1 ≤ 1 :=
              fun s hs => h s (by simp [hs])
            simp only [List.map_cons]
            rw [← ih has]
            congr 1
            have hb : Reg.boostFor ([] : Reg.CorrectionCache) = [] := rfl
            simp only [hb, List.lookup_nil, Option.getD_none, Option.getD]
            simp [Reg.sumCounts, hmin0, min_eq_right ha.2, max_eq_right ha.1]
    | cons e rest =>
        rw [if_neg (by simp)]
        refine List.map_congr_left (fun s _ => ?_)
        cases hf : List.lookup s.1 (e :: rest) <;>
          cases hb : (Reg.boostFor (e :: rest)).lookup s.1 <;>
            simp only [hf, hb, Option.getD] <;>
              simp [Reg.sumCounts, hmin0] <;> ring_nf
  refine ⟨hmap, ?_⟩
  intro s hs
  rw [hmap] at hs
  rcases List.mem_map.1 hs with ⟨a, ha, rfl⟩
  constructor
  · exact le_max_left 0 _
  · exact max_le (by norm_num) (min_le_left 1 _)

/-- Python rounding never goes below an integer lower bound. -/
theorem le_pyRoundInt {m : ℤ} {x : ℚ} (h : (m : ℚ) ≤ x) : m ≤ pyRoundInt x := by
  unfold pyRoundInt
  have hf : m ≤ ⌊x⌋ := Int.le_floor.2 h
  dsimp only
  split_ifs <;> omega

/-- Python rounding never exceeds an integer upper bound. -/
theorem pyRoundInt_le {m : ℤ} {x : ℚ} (h : x ≤ m) : pyRoundInt x ≤ m := by
  unfold pyRoundInt
  have hf : ⌊x⌋ ≤ m := by
    have h' : ⌊x⌋ ≤ ⌊(m : ℚ)⌋ := Int.floor_le_floor h
    simpa using h'
  have key : (1 / 2 : ℚ) ≤ x - ⌊x⌋ → ⌊x⌋ + 1 ≤ m := by
    intro hfr
    have hx : (⌊x⌋ : ℚ) < x := by linarith
    have h1 : (⌊x⌋ : ℚ) < (m : ℚ) := lt_of_lt_of_le hx h
    exact Int.add_one_le_iff.2 (by exact_mod_cast h1)
  dsimp only
  split_ifs with h1 h2 h3
  · exact hf
  · exact key (le_of_lt h2)
  · exact hf
  · exact key (not_lt.1 h1)

/-- `pyRound` as a plain rational division. -/
theorem pyRound_eq_div (q : ℚ) (n : ℕ) :
    pyRound q n = (pyRoundInt (q * (10 : ℚ) ^ n) : ℚ) / (10 : ℚ) ^ n := by
  unfold pyRound
  rw [Rat.divInt_eq_div]
  push_cast
  ring

/-- `round(x, n)` respects a lower bound expressible in `n` decimal
digits. -/
theorem le_pyRound {x : ℚ} {n : ℕ} {a : ℤ} (h : (a : ℚ) / 10 ^ n ≤ x) :
    (a : ℚ) / 10 ^ n ≤ pyRound x n := by
  rw [pyRound_eq_div]
  have hp : (0 : ℚ) < 10 ^ n := by positivity
  have h' : (a : ℚ) ≤ x * 10 ^ n := by
    rw [div_le_iff₀ hp] at h
    exact h
  have hr := le_pyRoundInt (m := a) (x := x * 10 ^ n) h'
  exact (div_le_div_iff_of_pos_right hp).2 (by exact_mod_cast hr)

/-- `round(x, n)` respects an upper bound expressible in `n` decimal
digits. -/
theorem pyRound_le {x : ℚ} {n : ℕ} {b : ℤ} (h : x ≤ (b : ℚ) / 10 ^ n) :
    pyRound x n ≤ (b : ℚ) / 10 ^ n := by
  rw [pyRound_eq_div]
  have hp : (0 : ℚ) < 10 ^ n := by positivity
  have h' : x * 10 ^ n ≤ (b : ℚ) := by
    rw [le_div_iff₀ hp] at h
    exact h
  have hr := pyRoundInt_le (m := b) (x := x * 10 ^ n) h'
  exact (div_le_div_iff_of_pos_right hp).2 (by exact_mod_cast hr)

/-- A successful pattern hit in the echo extractor is bounds-checked
(helper for C1). -/
theorem Echo.firstPatternHit_bounds (search : Echo.SearchOracle)
    (full_text : String) (mdef : Echo.MeasurementDef) :
    ∀ (ps : List String) (v : ℚ) (g : String),
      Echo.firstPatternHit search full_text mdef ps = some (v, g) →
      mdef.value_min ≤ v ∧ v ≤ mdef.value_max := by
  intro ps
  induction ps with
  | nil => intro v g h; simp [Echo.firstPatternHit] at h
  | cons p rest ih =>
      intro v g h
      unfold Echo.firstPatternHit at h
      cases hs : search p full_text with
      | none => rw [hs] at h; exact ih v g h
      | some vg =>
          obtain ⟨v', g'⟩ := vg
          simp only [hs] at h
          split_ifs at h with hb
          · obtain ⟨rfl, rfl⟩ : v' = v ∧ g' = g := by
              have h' := Option.some.inj h
              exact ⟨congrArg Prod.fst h', congrArg Prod.snd h'⟩
            exact hb
          · exact ih v g h

/-- The bounds invariant carried by every echo measurement (helper
statement for C1). -/
def Echo.Bounded (m : Echo.RawMeasurement) : Prop :=
  ∃ d ∈ Echo.MEASUREMENT_DEFS, d.abbreviation = m.abbreviation ∧
    d.value_min ≤ m.value ∧ m.value ≤ d.value_max

/-- The echo definition loop preserves the bounds invariant
(helper for C1). -/
theorem Echo.foldl_extractStep_bounds (search : Echo.SearchOracle)
    (full_text : String) (pages : List PageExtractionResult) :
    ∀ (defs : List Echo.MeasurementDef)
      (st : List Echo.RawMeasurement × List String),
      (∀ d ∈ defs, d ∈ Echo.MEASUREMENT_DEFS) →
      (∀ m ∈ st.1, Echo.Bounded m) →
      ∀ m ∈ (defs.foldl (Echo.extractStep search full_text pages) st).1,
        Echo.Bounded m := by
  intro defs
  induction defs with
  | nil => intro st _ hst m hm; exact hst m hm
  | cons d rest ih =>
      intro st hsub hst m hm
      rw [List.foldl_cons] at hm
      refine ih _ (fun d' hd' => hsub d' (by simp [hd'])) ?_ m hm
      intro m' hm'
      unfold Echo.extractStep at hm'
      split_ifs at hm'
      · exact hst m' hm'
      · cases hfp : Echo.firstPatternHit search full_text d d.patterns with
        | none => simp only [hfp] at hm'; exact hst m' hm'
        | some vg =>
            obtain ⟨v, g⟩ := vg
            simp only [hfp] at hm'
            rcases List.mem_append.1 hm' with h | h
            · exact hst m' h
            · rcases List.mem_singleton.1 h with rfl
              have hb := Echo.firstPatternHit_bounds search full_text d
                d.patterns v g hfp
              exact ⟨d, hsub d (by simp), rfl, hb.1, hb.2⟩

/-- The EF-range special case produces an LVEF measurement within the
LVEF definition's bounds (helper for C1). -/
theorem Echo.efRangeInit_bounds (efSearch : Echo.EFOracle)
    (full_text : String) (pages : List PageExtractionResult) :
    ∀ m ∈ (Echo.efRangeInit efSearch full_text pages).1, Echo.Bounded m := by
  intro m hm
  unfold Echo.efRangeInit at hm
  cases hef : efSearch full_text with
  | none => rw [hef] at hm; simp at hm
  | some lhg =>
      obtain ⟨low, rest⟩ := lhg
      obtain ⟨high, g⟩ := rest
      simp only [hef] at hm
      split_ifs at hm with hcond
      · rcases List.mem_singleton.1 hm with rfl
        obtain ⟨h1, h2, h3, h4, h5⟩ := hcond
        have hdef : ∃ d ∈ Echo.MEASUREMENT_DEFS, d.abbreviation = "LVEF" ∧
            d.value_min = 5 ∧ d.value_max = 95 := by
          with_unfolding_all decide
        obtain ⟨d, hd, hda, hdmin, hdmax⟩ := hdef
        have hmid1 : (5 : ℚ) ≤ (low + high) / 2 := by linarith
        have hmid2 : (low + high) / 2 ≤ 95 := by linarith
        have hlo : (5 : ℚ) ≤ pyRound ((low + high) / 2) 1 := by
          have := le_pyRound (a := 50) (n := 1) (x := (low + high) / 2)
            (by push_cast; linarith)
          calc (5 : ℚ) = (50 : ℤ) / 10 ^ 1 := by norm_num
            _ ≤ _ := this
        have hhi : pyRound ((low + high) / 2) 1 ≤ 95 := by
          have := pyRound_le (b := 950) (n := 1) (x := (low + high) / 2)
            (by push_cast; linarith)
          calc pyRound ((low + high) / 2) 1 ≤ (950 : ℤ) / 10 ^ 1 := this
            _ = 95 := by norm_num
        exact ⟨d, hd, hda, by rw [hdmin]; exact hlo, by rw [hdmax]; exact hhi⟩
      · simp at hm

/-- A successful lookup pair belongs to the association list
(helper for C1). -/
theorem lookup_mem {α : Type} [BEq α] [LawfulBEq α] {β : Type}
    {l : List (α × β)} {k : α} {v : β} (h : l.lookup k = some v) :
    (k, v) ∈ l := by
  induction l with
  | nil => simp [List.lookup] at h
  | cons a rest ih =>
      obtain ⟨a1, a2⟩ := a
      unfold List.lookup at h
      by_cases hk : k == a1
      · simp only [hk] at h
        have hk' : k = a1 := eq_of_beq hk
        have hv : a2 = v := by simpa using h
        subst hk'; subst hv
        exact List.mem_cons_self _ _
      · have hk' : (k == a1) = false := by simpa using hk
        simp only [hk'] at h
        exact List.mem_cons_of_mem _ (ih h)

/-- The bounds invariant carried by every lab measurement (helper
statement for C1). -/
def Labs.Bounded (m : Labs.RawMeasurement) : Prop :=
  ∃ d ∈ Labs.MEASUREMENT_DEFS, d.abbreviation = m.abbreviation ∧
    d.value_min ≤ m.value ∧ m.value ≤ d.value_max

/-- Elements produced by `upsertAssoc` come from the old list or carry the
inserted value (helper for C1). -/
theorem Labs.upsertAssoc_mem {l : List (String × Labs.MeasurementDef)}
    {k : String} {v : Labs.MeasurementDef} :
    ∀ p ∈ Labs.upsertAssoc l k v, p ∈ l ∨ p.2 = v := by
  induction l with
  | nil =>
      intro p hp
      rcases List.mem_singleton.1 hp with rfl
      exact Or.inr rfl
  | cons a rest ih =>
      obtain ⟨k', v'⟩ := a
      intro p hp
      unfold Labs.upsertAssoc at hp
      split_ifs at hp with hk
      · rcases List.mem_cons.1 hp with rfl | hmem
        · exact Or.inr rfl
        · exact Or.inl (List.mem_cons_of_mem _ hmem)
      · rcases List.mem_cons.1 hp with rfl | hmem
        · exact Or.inl (List.mem_cons_self _ _)
        · rcases ih p hmem with h | h
          · exact Or.inl (List.mem_cons_of_mem _ h)
          · exact Or.inr h

/-- The alias fold over one definition's aliases preserves a value
predicate (helper for C1). -/
theorem Labs.aliasFold_pred (P : Labs.MeasurementDef → Prop)
    (mdef : Labs.MeasurementDef) (hP : P mdef) :
    ∀ (aliases : List String) (acc : List (String × Labs.MeasurementDef)),
      (∀ p ∈ acc, P p.2) →
      ∀ p ∈ aliases.foldl
        (fun acc a => Labs.upsertAssoc acc (pyLower a) mdef) acc, P p.2 := by
  intro aliases
  induction aliases with
  | nil => intro acc hacc p hp; exact hacc p hp
  | cons a rest ih =>
      intro acc hacc p hp
      rw [List.foldl_cons] at hp
      refine ih _ ?_ p hp
      intro q hq
      rcases Labs.upsertAssoc_mem q hq with h | h
      · exact hacc q h
      · rw [h]; exact hP

/-- Every value stored in `_ALIAS_LOOKUP` is one of the measurement
definitions (helper for C1). -/
theorem Labs.mem_ALIAS_LOOKUP :
    ∀ p ∈ Labs.ALIAS_LOOKUP, p.2 ∈ Labs.MEASUREMENT_DEFS := by
  have main : ∀ (defs : List Labs.MeasurementDef)
      (acc : List (String × Labs.MeasurementDef)),
      (∀ d ∈ defs, d ∈ Labs.MEASUREMENT_DEFS) →
      (∀ p ∈ acc, p.2 ∈ Labs.MEASUREMENT_DEFS) →
      ∀ p ∈ defs.foldl
        (fun acc mdef => mdef.table_aliases.foldl
          (fun acc a => Labs.upsertAssoc acc (pyLower a) mdef) acc) acc,
        p.2 ∈ Labs.MEASUREMENT_DEFS := by
    intro defs
    induction defs with
    | nil => intro acc _ hacc p hp; exact hacc p hp
    | cons d rest ih =>
        intro acc hsub hacc p hp
        rw [List.foldl_cons] at hp
        refine ih _ (fun d' hd' => hsub d' (by simp [hd'])) ?_ p hp
        exact Labs.aliasFold_pred (· ∈ Labs.MEASUREMENT_DEFS) d
          (hsub d (by simp)) d.table_aliases acc hacc
  exact main Labs.MEASUREMENT_DEFS [] (fun d hd => hd) (by simp)

/-- A matched analyte definition is one of the measurement definitions
(helper for C1). -/
theorem Labs.matchRowToAnalyte_mem {row_name : String}
    {mdef : Labs.MeasurementDef}
    (h : Labs.matchRowToAnalyte row_name = some mdef) :
    mdef ∈ Labs.MEASUREMENT_DEFS := by
  unfold Labs.matchRowToAnalyte at h
  cases hl : Labs.ALIAS_LOOKUP.lookup
      (Labs.rstripColon (pyStrip (pyLower row_name))) with
  | some d =>
      simp only [hl] at h
      have hd : d = mdef := Option.some.inj h
      subst hd
      exact Labs.mem_ALIAS_LOOKUP _ (lookup_mem hl)
  | none =>
      simp only [hl] at h
      rcases List.exists_of_findSome?_eq_some h with ⟨p, hp, hfp⟩
      have : p.2 = mdef := by
        by_cases hc : pyIn p.1 (Labs.rstripColon (pyStrip (pyLower row_name)))
        · simpa [hc] using hfp
        · simp [hc] at hfp
      rw [← this]
      exact Labs.mem_ALIAS_LOOKUP p hp

/-- A successful pattern hit in the labs text extractor is bounds-checked
(helper for C1). -/
theorem Labs.textPatternHit_bounds (search : Labs.SearchOracle)
    (full_text : String) (mdef : Labs.MeasurementDef) :
    ∀ (ps : List String) (v : ℚ) (g : String),
      Labs.firstPatternHit search full_text mdef ps = some (v, g) →
      mdef.value_min ≤ v ∧ v ≤ mdef.value_max := by
  intro ps
  induction ps with
  | nil => intro v g h; simp [Labs.firstPatternHit] at h
  | cons p rest ih =>
      intro v g h
      unfold Labs.firstPatternHit at h
      cases hs : search p full_text with
      | none => rw [hs] at h; exact ih v g h
      | some vg =>
          obtain ⟨v', g'⟩ := vg
          simp only [hs] at h
          split_ifs at h with hb
          · obtain ⟨rfl, rfl⟩ : v' = v ∧ g' = g := by
              have h' := Option.some.inj h
              exact ⟨congrArg Prod.fst h', congrArg Prod.snd h'⟩
            exact hb
          · exact ih v g h

/-- One table row preserves the bounds invariant (helper for C1). -/
theorem Labs.tableRowStep_bounds (table : ExtractedTable)
    (rc : Option ℕ) (pcs : List (ℕ × String))
    (st : List Labs.RawMeasurement × List String) (row : List String)
    (hst : ∀ m ∈ st.1, Labs.Bounded m) :
    ∀ m ∈ (Labs.tableRowStep table rc pcs st row).1, Labs.Bounded m := by
  intro m hm
  unfold Labs.tableRowStep at hm
  split_ifs at hm with hempty
  · exact hst m hm
  · cases hma : Labs.matchRowToAnalyte (row.headD "") with
    | none => simp only [hma] at hm; exact hst m hm
    | some mdef =>
        simp only [hma] at hm
        split_ifs at hm with hseen
        · exact hst m hm
        · cases hrv : Labs.rowValue rc (pcs.map Prod.fst) row with
          | none => simp only [hrv] at hm; exact hst m hm
          | some value =>
              simp only [hrv] at hm
              split_ifs at hm with hb
              · rcases List.mem_append.1 hm with h | h
                · exact hst m h
                · rcases List.mem_singleton.1 h with rfl
                  exact ⟨mdef, Labs.matchRowToAnalyte_mem hma, rfl, hb.1, hb.2⟩
              · exact hst m hm

/-- The row loop of `_extract_from_tables` preserves the bounds invariant
(helper for C1). -/
theorem Labs.rowsFold_bounds (table : ExtractedTable) (rc : Option ℕ)
    (pcs : List (ℕ × String)) :
    ∀ (rows : List (List String)) (st : List Labs.RawMeasurement × List String),
      (∀ m ∈ st.1, Labs.Bounded m) →
      ∀ m ∈ (rows.foldl (Labs.tableRowStep table rc pcs) st).1,
        Labs.Bounded m := by
  intro rows
  induction rows with
  | nil => intro st hst m hm; exact hst m hm
  | cons r rest ih =>
      intro st hst m hm
      rw [List.foldl_cons] at hm
      exact ih _ (Labs.tableRowStep_bounds table rc pcs st r hst) m hm

/-- The table loop of `_extract_from_tables` preserves the bounds
invariant (helper for C1). -/
theorem Labs.tablesFold_bounds (isTemporal : String → Bool) :
    ∀ (tables : List ExtractedTable)
      (st : List Labs.RawMeasurement × List String),
      (∀ m ∈ st.1, Labs.Bounded m) →
      ∀ m ∈ (tables.foldl (Labs.tableStep isTemporal) st).1,
        Labs.Bounded m := by
  intro tables
  induction tables with
  | nil => intro st hst m hm; exact hst m hm
  | cons tb rest ih =>
      intro st hst m hm
      rw [List.foldl_cons] at hm
      refine ih _ ?_ m hm
      intro m' hm'
      unfold Labs.tableStep at hm'
      split_ifs at hm' with hskip
      · exact hst m' hm'
      · exact Labs.rowsFold_bounds tb _ _ tb.rows st hst m' hm'

/-- Every table-extracted measurement respects its analyte's bounds
(helper for C1). -/
theorem Labs.extractFromTables_bounds (isTemporal : String → Bool)
    (tables : List ExtractedTable) :
    ∀ m ∈ Labs.extractFromTables isTemporal tables, Labs.Bounded m := by
  intro m hm
  exact Labs.tablesFold_bounds isTemporal tables ([], []) (by simp) m hm

/-- The labs definition loop preserves the bounds invariant
(helper for C1). -/
theorem Labs.foldl_textStep_bounds (search : Labs.SearchOracle)
    (full_text : String) (pages : List PageExtractionResult) :
    ∀ (defs : List Labs.MeasurementDef)
      (st : List Labs.RawMeasurement × List String),
      (∀ d ∈ defs, d ∈ Labs.MEASUREMENT_DEFS) →
      (∀ m ∈ st.1, Labs.Bounded m) →
      ∀ m ∈ (defs.foldl (Labs.textStep search full_text pages) st).1,
        Labs.Bounded m := by
  intro defs
  induction defs with
  | nil => intro st _ hst m hm; exact hst m hm
  | cons d rest ih =>
      intro st hsub hst m hm
      rw [List.foldl_cons] at hm
      refine ih _ (fun d' hd' => hsub d' (by simp [hd'])) ?_ m hm
      intro m' hm'
      unfold Labs.textStep at hm'
      split_ifs at hm'
      · exact hst m' hm'
      · cases hfp : Labs.firstPatternHit search full_text d d.patterns with
        | none => simp only [hfp] at hm'; exact hst m' hm'
        | some vg =>
            obtain ⟨v, g⟩ := vg
            simp only [hfp] at hm'
            rcases List.mem_append.1 hm' with h | h
            · exact hst m' h
            · rcases List.mem_singleton.1 h with rfl
              have hb := Labs.textPatternHit_bounds search full_text d
                d.patterns v g hfp
              exact ⟨d, hsub d (by simp), rfl, hb.1, hb.2⟩

/-- Every pattern-extracted lab measurement respects its analyte's bounds
(helper for C1). -/
theorem Labs.extractFromText_bounds (search : Labs.SearchOracle)
    (full_text : String) (pages : List PageExtractionResult)
    (seen : List String) :
    ∀ m ∈ Labs.extractFromText search full_text pages seen,
      Labs.Bounded m := by
  intro m hm
  exact Labs.foldl_textStep_bounds search full_text pages
    Labs.MEASUREMENT_DEFS ([], seen) (fun d hd => hd) (by simp) m hm

/-- C1 (amended): every pattern or table match is bounds-checked at
extraction time — a match whose numeric value lies outside this code's
`value_min ≤ value ≤ value_max` never produces a measurement (it is
discarded, not clamped).  The echo extractor's full output satisfies the
invariant for every oracle outcome; in the labs extractor the invariant
holds for the combined table-first plus pattern-fallback results before
the unit-normalization pass, whose rescaling (PLT in lakh ×100) can move
a returned value outside the declared bounds. -/
theorem C1_measurement_bounds_amended :
    (∀ (search : Echo.SearchOracle) (efSearch : Echo.EFOracle)
        (full_text : String) (pages : List PageExtractionResult),
      ∀ m ∈ Echo.extract_measurements search efSearch full_text pages,
        ∃ d ∈ Echo.MEASUREMENT_DEFS, d.abbreviation = m.abbreviation ∧
          d.value_min ≤ m.value ∧ m.value ≤ d.value_max) ∧
    (∀ (search : Labs.SearchOracle) (isTemporal : String → Bool)
        (full_text : String) (pages : List PageExtractionResult)
        (tables : List ExtractedTable),
      ∀ m ∈ Labs.combinedResults search isTemporal full_text pages tables,
        ∃ d ∈ Labs.MEASUREMENT_DEFS, d.abbreviation = m.abbreviation ∧
          d.value_min ≤ m.value ∧ m.value ≤ d.value_max) := by
  constructor
  · intro search efs full_text pages m hm
    exact Echo.foldl_extractStep_bounds search full_text pages
      Echo.MEASUREMENT_DEFS (Echo.efRangeInit efs full_text pages)
      (fun d hd => hd) (Echo.efRangeInit_bounds efs full_text pages) m hm
  · intro search isTemporal full_text pages tables m hm
    have hm' : m ∈ Labs.extractFromTables isTemporal tables ++
        Labs.extractFromText search full_text pages
          ((Labs.extractFromTables isTemporal tables).map
            (fun m => m.abbreviation)) := hm
    rcases List.mem_append.1 hm' with h | h
    · exact Labs.extractFromTables_bounds isTemporal tables m h
    · exact Labs.extractFromText_bounds search full_text pages _ m h

/-- C1 witness: the LVEF measurement extracted from `"LVEF: 55-60%"`
(value 57.5) sits inside the LVEF definition's bounds. -/
theorem C1_measurement_bounds_amended_witness :
    ∃ d ∈ Echo.MEASUREMENT_DEFS, d.abbreviation = "LVEF" ∧
      d.value_min ≤ (57.5 : ℚ) ∧ (57.5 : ℚ) ≤ d.value_max := by
  have h := C1_measurement_bounds_amended.1 (fun _ _ => none) c8EfOracle
    "LVEF: 55-60%" []
    { name := "Left Ventricular Ejection Fraction"
      abbreviation := "LVEF"
      value := 57.5
      unit := "%"
      raw_text := "LVEF: 55-60%"
      page_number := none }
    (by with_unfolding_all decide)
  exact h

/-- Search oracle for the C1 counterexample: on the text
`"Platelet count: 30 lakh/cumm"` the first PLT pattern matches the whole
string with `value` group `30` (hand-checked against
`platelet(?:s)?(?:\s+count)?...` with the optional `lakh\/\s*cumm` unit
suffix present); no other analyte pattern matches this text. -/
def c1CexSearch : Labs.SearchOracle := fun p _ =>
  if p = "(?i)platelet(?:s)?(?:\\s+count)?[\\s:=]+\\s*(?P<value>\\d+\\.?\\d*)\\s*(?:K\\/uL|k\\/ul|x10[³\\^]3\\/uL|lakh\\/\\s*cumm|lac\\/cumm)?"
  then some (30, "Platelet count: 30 lakh/cumm")
  else none

/-- C1 counterexample: the claim as stated fails on the labs extractor.
The text `"Platelet count: 30 lakh/cumm"` yields PLT = 30 at match time
(inside PLT's declared bounds 0.5-2000), but `extract_measurements` then
rescales the lakh-unit value by ×100, returning a PLT measurement of
3000 (numerator 3000, denominator 1), which exceeds PLT's declared
`value_max` of 2000. -/
theorem C1_measurement_bounds_counterexample :
    ((Labs.extract_measurements c1CexSearch (fun _ => false)
        "Platelet count: 30 lakh/cumm" [] []).map
      (fun m => (m.abbreviation, m.value.num, m.value.den)) =
        [("PLT", (3000 : ℤ), (1 : ℕ))]) ∧
    ((Labs.MEASUREMENT_DEFS.filter (fun d => d.abbreviation = "PLT")).map
      (fun d => (d.value_min, d.value_max)) = [((0.5 : ℚ), (2000 : ℚ))]) ∧
    ((Labs.extract_measurements c1CexSearch (fun _ => false)
        "Platelet count: 30 lakh/cumm" [] []).all
      (fun m => !decide (m.value ≤ 2000.0)) = true) := by
  with_unfolding_all decide

/-- Inert handler for the C6 witness. -/
def c6Handler : Reg.Handler :=
  { test_type_id := "b"
    keywords := []
    detectScore := fun _ => none
    isGeneric := false
    resolveSubtype := fun _ => none }

/-- C6 witness: one prior correction pattern a→b (count 2) boosts a score
for type b; instantiates the adjustment formula at a concrete cache and
score list. -/
theorem C6_correction_adjustment_witness :
    Reg.applyCorrectionAdjustments [("a", [("b", 2)])] [("b", 0.5, c6Handler)] =
      [("b", (0.5 : ℚ), c6Handler)].map (fun s =>
        (s.1,
         max 0 (min 1 (s.2.1
           + min ((((Reg.boostFor [("a", [("b", 2)])]).lookup s.1).getD 0 : ℚ) * 0.03) 0.10
           - min ((Reg.sumCounts ((List.lookup s.1 [("a", [("b", 2)])]).getD []) : ℚ) * 0.03) 0.10)),
         s.2.2)) :=
  (C6_correction_adjustment [("a", [("b", 2)])] [("b", 0.5, c6Handler)]
    (by
      intro s hs
      rcases List.mem_singleton.1 hs with rfl
      constructor <;> norm_num)).1

/-- The pipe row loop recovers exactly the data lines when every data line
is pipe-delimited within the ±1 column tolerance (helper for C7). -/
theorem TextTables.collectPipeRows_count (expected : ℕ) :
    ∀ ls : List String,
      (∀ l ∈ ls, TextTables.isDataLine l = false ∨
        (l.contains '|' = true ∧
         TextTables.withinOne (TextTables.splitPipe l).length expected = true)) →
      (TextTables.collectPipeRows expected ls).length =
        (ls.filter TextTables.isDataLine).length := by
  intro ls
  induction ls with
  | nil => intro _; rfl
  | cons l rest ih =>
      intro h
      have hrest := ih (fun x hx => h x (List.mem_cons_of_mem _ hx))
      by_cases hd : TextTables.isDataLine l
      · rcases h l (List.mem_cons_self _ _) with hnd | ⟨hp, hw⟩
        · rw [hd] at hnd; cases hnd
        · unfold TextTables.collectPipeRows
          simp [hd, hp, hw, List.filter_cons, hrest]
      · have hd' : TextTables.isDataLine l = false := by simpa using hd
        unfold TextTables.collectPipeRows
        simp [hd', List.filter_cons, hrest]

/-- `filterMap` with an everywhere-successful function is `map`
(helper for C7). -/
theorem filterMap_eq_map_of_forall {α β : Type} (f : α → Option β) (g : α → β) :
    ∀ l : List α, (∀ x ∈ l, f x = some (g x)) → l.filterMap f = l.map g := by
  intro l
  induction l with
  | nil => intro _; rfl
  | cons x rest ih =>
      intro h
      rw [List.filterMap_cons, h x (List.mem_cons_self _ _), List.map_cons,
        ih (fun y hy => h y (List.mem_cons_of_mem _ hy))]

/-- Completeness of pipe-table recovery (helper for C7): with a
pipe-delimited header first and every further line either non-data or a
pipe row within ±1 column of the header, the parser returns one table
whose rows are exactly the data lines. -/
theorem TextTables.tryPipeDelimited_complete (hdr : String) (rest : List String)
    (hd : TextTables.isDataLine hdr = true)
    (hp : hdr.contains '|' = true)
    (hlen : 2 ≤ (TextTables.splitPipe hdr).length)
    (hrows : ∀ l ∈ rest, TextTables.isDataLine l = false ∨
      (l.contains '|' = true ∧
       TextTables.withinOne (TextTables.splitPipe l).length
         (TextTables.splitPipe hdr).length = true))
    (hscan : 2 ≤ (((hdr :: rest).take 30).filter
        (fun l => l.contains '|' && TextTables.isDataLine l)).length)
    (hN : 1 ≤ (rest.filter TextTables.isDataLine).length) :
    ∃ t : ExtractedTable, TextTables.tryPipeDelimited (hdr :: rest) = [t] ∧
      t.headers = TextTables.splitPipe hdr ∧
      t.rows.length = (rest.filter TextTables.isDataLine).length := by
  have hfind : TextTables.findFirstSplit
      (fun l => l.contains '|' && TextTables.isDataLine l) (hdr :: rest) =
      some (hdr, rest) := by
    unfold TextTables.findFirstSplit
    rw [if_pos (by rw [hp, hd]; rfl)]
  have hcount := TextTables.collectPipeRows_count
    (TextTables.splitPipe hdr).length rest hrows
  have hlen0 : 0 < (TextTables.collectPipeRows
      (TextTables.splitPipe hdr).length rest).length := by
    rw [hcount]; omega
  have hne : (TextTables.collectPipeRows
      (TextTables.splitPipe hdr).length rest).isEmpty = false :=
    List.isEmpty_eq_false_iff_exists_mem.2 (List.exists_mem_of_length_pos hlen0)
  refine ⟨{ page_number := 1, table_index := 0,
            headers := TextTables.splitPipe hdr,
            rows := TextTables.collectPipeRows
              (TextTables.splitPipe hdr).length rest }, ?_, rfl, hcount⟩
  simp only [TextTables.tryPipeDelimited]
  rw [if_neg (by omega)]
  simp only [hfind]
  rw [if_neg (by simp only [TextTables.MIN_COLS]; omega),
    if_neg (by simp [hne])]

/-- Completeness of fixed-width recovery (helper for C7): when every data
line splits into at least two cells whose counts are all within ±1 of the
modal column count, and the first data line carries a header keyword, the
parser returns one table with exactly one row per remaining data line. -/
theorem TextTables.tryFixedWidth_complete (lines : List String)
    (hd : String) (tl : List String)
    (hdls : lines.filter TextTables.isDataLine = hd :: tl)
    (hcells : ∀ l ∈ lines.filter TextTables.isDataLine,
      TextTables.MIN_COLS ≤ (TextTables.splitFixed l).length)
    (hmodal : ∀ l ∈ lines.filter TextTables.isDataLine,
      TextTables.withinOne (TextTables.splitFixed l).length
        (TextTables.modalCount
          (((lines.filter TextTables.isDataLine).map
            TextTables.splitFixed).map List.length)) = true)
    (h2 : 2 ≤ (lines.filter TextTables.isDataLine).length)
    (hgap : 2 ≤ (((lines.filter TextTables.isDataLine).take 30).filter
        (fun l => TextTables.hasMultiSpaceGap l.data)).length)
    (hheader : (TextTables.splitFixed hd).any
      (fun c => TextTables.FW_HEADER_KEYWORDS.contains
        (pyStrip (pyLower c))) = true) :
    ∃ t : ExtractedTable, TextTables.tryFixedWidth lines = [t] ∧
      t.headers = TextTables.splitFixed hd ∧
      t.rows.length = tl.length := by
  have hparsed : (lines.filter TextTables.isDataLine).filterMap
      TextTables.fwParse =
      (lines.filter TextTables.isDataLine).map TextTables.splitFixed := by
    refine filterMap_eq_map_of_forall _ _ _ (fun x hx => ?_)
    unfold TextTables.fwParse
    rw [if_pos (hcells x hx)]
  have htl1 : 1 ≤ tl.length := by
    have hlen := congrArg List.length hdls
    rw [List.length_cons] at hlen
    omega
  refine ⟨{ page_number := 1, table_index := 0,
            headers := TextTables.splitFixed hd,
            rows := (tl.map TextTables.splitFixed).map
              (TextTables.padTrim (TextTables.splitFixed hd).length) },
    ?_, rfl, by simp⟩
  simp only [TextTables.tryFixedWidth]
  rw [if_neg (by omega), if_neg (by omega), hparsed]
  rw [if_neg (by simp only [List.length_map]; omega)]
  rw [List.filter_eq_self.2 (by
    intro row hrow
    rcases List.mem_map.1 hrow with ⟨l, hl, rfl⟩
    exact hmodal l hl)]
  rw [hdls]
  simp only [List.map_cons]
  rw [hheader]
  have hrows_ne : (List.map (TextTables.padTrim (TextTables.splitFixed hd).length)
      (List.map TextTables.splitFixed tl)).isEmpty = false := by
    cases tl with
    | nil => simp at htl1
    | cons a t => rfl
  simp [hrows_ne]
  rw [if_neg (by omega),
    if_neg (by intro h0; rw [h0] at htl1; simp at htl1)]

/-- The pipe-delimited scenario input of C7. -/
def c7PipeInput : String :=
  "Component | Value | Units\nGlucose | 95 | mg/dL\nSodium | 140 | mmol/L"

/-- C7 (amended): for a synthetic pipe-delimited pasted table — a
pipe-delimited header line followed by data rows whose cell counts are
within ±1 of the header's — the parser recovers exactly the data rows
(only blank/separator and pipe-less lines are dropped).  For a
fixed-width table the ±1 tolerance is measured against the modal column
count of the parsed lines rather than the header's: when every parsed
data line is within ±1 of the modal count (and has at least two cells),
with a recognized header line first, exactly the remaining data lines are
recovered.  In particular the `"Component | Value | Units"` input with
two pipe-delimited data rows yields exactly one ExtractedTable with 3
headers and 2 rows. -/
theorem C7_table_row_recovery_amended :
    (∀ (hdr : String) (rest : List String),
      TextTables.isDataLine hdr = true →
      hdr.contains '|' = true →
      2 ≤ (TextTables.splitPipe hdr).length →
      (∀ l ∈ rest, TextTables.isDataLine l = false ∨
        (l.contains '|' = true ∧
         TextTables.withinOne (TextTables.splitPipe l).length
           (TextTables.splitPipe hdr).length = true)) →
      2 ≤ (((hdr :: rest).take 30).filter
          (fun l => l.contains '|' && TextTables.isDataLine l)).length →
      1 ≤ (rest.filter TextTables.isDataLine).length →
      ∃ t : ExtractedTable, TextTables.tryPipeDelimited (hdr :: rest) = [t] ∧
        t.headers = TextTables.splitPipe hdr ∧
        t.rows.length = (rest.filter TextTables.isDataLine).length) ∧
    (∀ (lines : List String) (hd : String) (tl : List String),
      lines.filter TextTables.isDataLine = hd :: tl →
      (∀ l ∈ lines.filter TextTables.isDataLine,
        TextTables.MIN_COLS ≤ (TextTables.splitFixed l).length) →
      (∀ l ∈ lines.filter TextTables.isDataLine,
        TextTables.withinOne (TextTables.splitFixed l).length
          (TextTables.modalCount
            (((lines.filter TextTables.isDataLine).map
              TextTables.splitFixed).map List.length)) = true) →
      2 ≤ (lines.filter TextTables.isDataLine).length →
      2 ≤ (((lines.filter TextTables.isDataLine).take 30).filter
          (fun l => TextTables.hasMultiSpaceGap l.data)).length →
      (TextTables.splitFixed hd).any
        (fun c => TextTables.FW_HEADER_KEYWORDS.contains
          (pyStrip (pyLower c))) = true →
      ∃ t : ExtractedTable, TextTables.tryFixedWidth lines = [t] ∧
        t.headers = TextTables.splitFixed hd ∧
        t.rows.length = tl.length) ∧
    ((TextTables.parse_text_tables c7PipeInput none).map
      (fun t => (t.headers.length, t.rows.length)) = [(3, 2)]) :=
  ⟨TextTables.tryPipeDelimited_complete,
   TextTables.tryFixedWidth_complete,
   by with_unfolding_all decide⟩

/-- C7 witness: the pipe half applied to the concrete scenario input. -/
theorem C7_table_row_recovery_amended_witness :
    ∃ t : ExtractedTable,
      TextTables.tryPipeDelimited ("Component | Value | Units" ::
        ["Glucose | 95 | mg/dL", "Sodium | 140 | mmol/L"]) = [t] ∧
      t.headers = TextTables.splitPipe "Component | Value | Units" ∧
      t.rows.length = (["Glucose | 95 | mg/dL",
        "Sodium | 140 | mmol/L"].filter TextTables.isDataLine).length :=
  C7_table_row_recovery_amended.1 "Component | Value | Units"
    ["Glucose | 95 | mg/dL", "Sodium | 140 | mmol/L"]
    (by with_unfolding_all decide) (by with_unfolding_all decide)
    (by with_unfolding_all decide) (by with_unfolding_all decide)
    (by with_unfolding_all decide) (by with_unfolding_all decide)

/-- The fixed-width counterexample input of C7: a 4-column header and
three data rows with 3, 3 and 5 cells — every row within ±1 of the
header's 4 columns. -/
def c7FixedInput : String :=
  "Test  Result  Units  Range\nNa  140  mEq/L\nK  4.0  mEq/L\nGlucose  95  mg/dL  70-100  H"

/-- C7 counterexample: the claim as stated fails for fixed-width tables.
The input has a 4-column header and N = 3 data rows whose column counts
(3, 3, 5) are all within ±1 of the header's, yet the parser recovers only
2 rows: the modal column count of the parsed lines is 3, and the 5-cell
row is more than one column away from it, so it is silently dropped. -/
theorem C7_table_row_recovery_counterexample :
    (((pySplitlines c7FixedInput).filter
        TextTables.isDataLine).length = 4) ∧
    ((pySplitlines c7FixedInput).all
      (fun l => TextTables.withinOne (TextTables.splitFixed l).length 4) = true) ∧
    ((TextTables.parse_text_tables c7FixedInput none).map
      (fun t => t.rows.length) = [2]) ∧
    (2 ≠ 3) := by
  with_unfolding_all decide
